import Mathlib

/-!
Shallow embedding of the rustendo NES emulator core (src/memory.rs,
src/controller.rs, src/cpu.rs).

Conventions of the embedding:
* Machine integers are `Nat`.  `u8`/`u16` wrap-around is written explicitly
  (`% 0x100`, `% 0x10000`, `&&& 0xFF`, ...) exactly where the Rust code
  performs a wrapping operation (release semantics for the plain `+` that
  Rust would reject in debug builds only on actual overflow).
* Fallible operations (Rust `panic!`, out-of-bounds `Vec` indexing) are
  modelled with `Option`: `none` is a panic / abort of the interpreter.
* Fixed-size Rust arrays and `Vec`s are Lean `List Nat`s; indexing a fixed
  array whose index is forced in range by the surrounding arithmetic uses
  `List.getD`, while `Vec` accesses that can actually be out of bounds in
  the source carry an explicit bounds check that fails to `none`.
-/

set_option maxHeartbeats 4000000
set_option maxRecDepth 8000

namespace Rustendo

/-! ### Memory (src/memory.rs) -/

structure Memory where
  ram : List Nat                 -- [u8; 0x800]
  ppu_registers : List Nat       -- [u8; 0x08]
  apu_and_io_registers : List Nat -- [u8; 0x18]
  cartridge_expansion : List Nat -- [u8; 0x1F00]
  cartridge_ram : List Nat       -- Vec<u8>
  cartridge_rom : List Nat       -- Vec<u8>
  cartridge_chr_rom : List Nat   -- Vec<u8>
  deriving Repr, DecidableEq

def Memory.new : Memory :=
  { ram := List.replicate 0x800 0
    ppu_registers := List.replicate 0x08 0
    apu_and_io_registers := List.replicate 0x18 0
    cartridge_expansion := List.replicate 0x1F00 0
    cartridge_ram := []
    cartridge_rom := []
    cartridge_chr_rom := [] }

/-- `Memory::read_byte`.  The `0x6000..=0x7FFF` arm indexes the
`cartridge_ram` `Vec` without a bounds check in the source, so it panics
(`none`) when the index is past the vector's length. -/
def read_byte (m : Memory) (address : Nat) : Option Nat :=
  if address ≤ 0x1FFF then some (m.ram.getD (address % 0x800) 0)
  else if address ≤ 0x3FFF then some (m.ppu_registers.getD ((address - 0x2000) % 8) 0)
  else if address ≤ 0x4017 then some (m.apu_and_io_registers.getD (address - 0x4000) 0)
  else if address ≤ 0x401F then some 0 -- Unused
  else if address ≤ 0x5FFF then some 0 -- Cartridge expansion
  else if address ≤ 0x7FFF then
    if address - 0x6000 < m.cartridge_ram.length then
      some (m.cartridge_ram.getD (address - 0x6000) 0)
    else none
  else if address ≤ 0xFFFF then
    some (if address - 0x8000 < m.cartridge_rom.length then
            m.cartridge_rom.getD (address - 0x8000) 0
          else 0)
  else some 0

/-- `Memory::write_byte`.  The match in the source has no arm for
`0x2008..=0x3FFF` and `0x4018..=0x401F` (they hit the catch-all
`panic!`), the `0x4020..=0x5FFF` arm indexes the fixed `[u8; 0x1F00]`
array with an index that can reach `0x1FDF`, the `0x6000..=0x7FFF` arm
indexes the `cartridge_ram` `Vec` unchecked, and the `0x8000..=0xFFFF`
arm is an explicit `panic!`. -/
def write_byte (m : Memory) (addr value : Nat) : Option Memory :=
  if addr ≤ 0x1FFF then some { m with ram := m.ram.set (addr &&& 0x07FF) value }
  else if addr ≤ 0x2007 then some { m with ppu_registers := m.ppu_registers.set (addr &&& 0x07) value }
  else if addr ≤ 0x3FFF then none -- catch-all arm: panic!
  else if addr ≤ 0x4017 then some { m with apu_and_io_registers := m.apu_and_io_registers.set (addr &&& 0x001F) value }
  else if addr ≤ 0x401F then none -- catch-all arm: panic!
  else if addr ≤ 0x5FFF then
    if addr - 0x4020 < 0x1F00 then
      some { m with cartridge_expansion := m.cartridge_expansion.set (addr - 0x4020) value }
    else none -- index out of bounds of the fixed array: panic
  else if addr ≤ 0x7FFF then
    if addr - 0x6000 < m.cartridge_ram.length then
      some { m with cartridge_ram := m.cartridge_ram.set (addr - 0x6000) value }
    else none -- Vec index out of bounds: panic
  else none -- 0x8000..=0xFFFF: explicit panic! on PRG-ROM write

/-- `Memory::read_word` (little-endian pair, wrapping address increment). -/
def read_word (m : Memory) (address : Nat) : Option Nat := do
  let low ← read_byte m address
  let high ← read_byte m ((address + 1) % 0x10000)
  some ((high <<< 8) ||| low)

/-- `Memory::read_word_zero_page`: the high byte comes from
`(addr + 1) & 0xFF`, reproducing the 6502 zero-page wraparound. -/
def read_word_zero_page (m : Memory) (addr : Nat) : Option Nat := do
  let lo ← read_byte m (addr &&& 0xFF)
  let hi ← read_byte m ((addr + 1) &&& 0xFF)
  some ((hi <<< 8) ||| lo)

/-! ### Controller (src/controller.rs) -/

structure Controller where
  buttons : List Bool -- [bool; 8]
  strobe : Bool
  index : Nat
  deriving Repr, DecidableEq

def Controller.new : Controller :=
  { buttons := List.replicate 8 false, strobe := false, index := 0 }

def Controller.write (c : Controller) (value : Nat) : Controller :=
  let strobe := value &&& 0x01 != 0
  { c with strobe := strobe, index := if strobe then 0 else c.index }

def Controller.read (c : Controller) : Controller × Nat :=
  let button_state :=
    if c.index < c.buttons.length then
      (if c.buttons.getD c.index false then 1 else 0)
    else 0
  let c :=
    if c.strobe then { c with index := 0 } else { c with index := c.index + 1 }
  (c, button_state)

/-! ### CPU state and flag helpers (src/cpu.rs) -/

structure CPUState where
  a : Nat
  x : Nat
  y : Nat
  pc : Nat
  sp : Nat
  status : Nat
  memory : Memory
  deriving Repr, DecidableEq

/-- `CPU::update_carry_flag`. -/
def update_carry_flag (status : Nat) (value : Bool) : Nat :=
  if value then status ||| 0x01 else status &&& 0xFE

/-- `CPU::set_zero_flag`. -/
def set_zero_flag (status : Nat) (value : Bool) : Nat :=
  if value then status ||| 0x02 else status &&& 0xFD

/-- `CPU::set_negative_flag`. -/
def set_negative_flag (status : Nat) (value : Bool) : Nat :=
  if value then status ||| 0x80 else status &&& 0x7F

/-- `CPU::set_carry_flag` (same body as `update_carry_flag`). -/
def set_carry_flag (status : Nat) (condition : Bool) : Nat :=
  if condition then status ||| 0x01 else status &&& 0xFE

/-- `CPU::set_overflow_flag`. -/
def set_overflow_flag (status : Nat) (value : Bool) : Nat :=
  if value then status ||| 0x40 else status &&& 0xBF

/-- `CPU::update_zero_and_negative_flags`. -/
def update_zero_and_negative_flags (status value : Nat) : Nat :=
  set_negative_flag (set_zero_flag status (value == 0)) (value &&& 0x80 != 0)

/-- `CPU::update_overflow_flag`. -/
def update_overflow_flag (status a b result : Nat) : Nat :=
  set_overflow_flag status (((a ^^^ result) &&& (b ^^^ result) &&& 0x80) != 0)

/-- `CPU::branch_ticks` (its result is discarded at most call sites). -/
def branch_ticks (old_pc new_pc : Nat) : Nat :=
  if old_pc &&& 0xFF00 != new_pc &&& 0xFF00 then 2 else 1

/-- `CPU::adc`: `t = A + v + C`, carry from `t > 0xFF`, N/Z from `t as u8`,
overflow from `(A ^ t) & (v ^ t) & 0x80` with the old accumulator. -/
def adc (s : CPUState) (value : Nat) : CPUState :=
  let carry := if s.status &&& 0x01 == 1 then 1 else 0
  let temp := s.a + value + carry
  let st := update_carry_flag s.status (decide (temp > 0xFF))
  let st := update_zero_and_negative_flags st (temp % 0x100)
  let st := update_overflow_flag st s.a value (temp % 0x100)
  { s with status := st, a := temp % 0x100 }

/-- `CPU::sbc`: note the carry-in is `0` when the carry flag is set and `1`
when it is clear, and the overflow formula uses `value` (not its
complement); both taken verbatim from the source. -/
def sbc (s : CPUState) (value : Nat) : CPUState :=
  let carry := if s.status &&& 0x01 == 1 then 0 else 1
  let result := s.a + (value ^^^ 0xFF) + carry
  let st := set_carry_flag s.status (decide (result > 0xFF))
  let st := set_overflow_flag st (((s.a ^^^ result) &&& (value ^^^ result) &&& 0x80) != 0)
  let a' := result % 0x100
  let st := update_zero_and_negative_flags st a'
  { s with a := a', status := st }

/-- `CPU::ror` (the helper used by opcodes 0x6E/0x6F; it rotates the value
through its own bit 0 and updates only N/Z, never the carry flag). -/
def ror (s : CPUState) (value : Nat) : CPUState × Nat :=
  let carry := (value &&& 1) <<< 7
  let result := (value >>> 1) ||| carry
  ({ s with status := update_zero_and_negative_flags s.status result }, result)

/-- `CPU::compare` (`register.wrapping_sub(value)` on bytes). -/
def compare (s : CPUState) (register value : Nat) : CPUState :=
  let result := (register + 0x100 - value) % 0x100
  let st := set_carry_flag s.status (decide (register ≥ value))
  { s with status := update_zero_and_negative_flags st result }

/-- `CPU::rotate_left`. -/
def rotate_left (s : CPUState) (value : Nat) : CPUState × Nat :=
  let carry_bit := if s.status &&& 0x01 == 0x01 then 1 else 0
  let new_carry := value &&& 0x80 != 0
  let result := ((value <<< 1) &&& 0xFF) ||| carry_bit
  let st := update_zero_and_negative_flags s.status result
  let st := if new_carry then st ||| 0x01 else st &&& 0xFE
  ({ s with status := st }, result)

/-- `CPU::rotate_right`. -/
def rotate_right (s : CPUState) (value : Nat) : CPUState × Nat :=
  let carry_bit := (value &&& 1) <<< 7
  let new_carry_flag := value &&& 1 != 0
  let rotated := (value >>> 1) ||| carry_bit
  let st := set_carry_flag s.status new_carry_flag
  let st := set_zero_flag st (rotated == 0)
  let st := set_negative_flag st (rotated &&& 0x80 != 0)
  ({ s with status := st }, rotated)

/-- `CPU::push_byte_to_stack`. The write targets `0x0100 | SP`, which is
internal RAM, so it cannot actually fail; the `Option` mirrors
`Memory::write_byte`. -/
def push_byte_to_stack (s : CPUState) (value : Nat) : Option CPUState :=
  (write_byte s.memory (0x0100 ||| s.sp) value).map fun m =>
    { s with memory := m, sp := (s.sp + 0xFF) % 0x100 }

/-- `CPU::pop_byte_from_stack`. -/
def pop_byte_from_stack (s : CPUState) : Option (CPUState × Nat) :=
  let sp' := (s.sp + 1) % 0x100
  (read_byte s.memory (0x0100 ||| sp')).map fun v => ({ s with sp := sp' }, v)

/-- `CPU::push_word_to_stack` (high byte first). -/
def push_word_to_stack (s : CPUState) (value : Nat) : Option CPUState := do
  let m1 ← write_byte s.memory (0x0100 ||| s.sp) ((value >>> 8) &&& 0xFF)
  let s := { s with memory := m1, sp := (s.sp + 0xFF) % 0x100 }
  let m2 ← write_byte s.memory (0x0100 ||| s.sp) (value &&& 0xFF)
  some { s with memory := m2, sp := (s.sp + 0xFF) % 0x100 }

/-- `CPU::pop_word_from_stack` (low byte first). -/
def pop_word_from_stack (s : CPUState) : Option (CPUState × Nat) := do
  let sp1 := (s.sp + 1) % 0x100
  let low_byte ← read_byte s.memory (0x0100 ||| sp1)
  let sp2 := (sp1 + 1) % 0x100
  let high_byte ← read_byte s.memory (0x0100 ||| sp2)
  some ({ s with sp := sp2 }, (high_byte <<< 8) ||| low_byte)

/-- `CPU::invalid_opcode`: an unconditional `panic!`. -/
def invalid_opcode : Option (CPUState × Nat) := none

/-- `CPU::new`: registers zero, `SP = 0xFD`, `P = 0x24`, `PC` from the
reset vector.  `read_word` at `0xFFFC` lands in the (total) PRG-ROM arm of
`read_byte`, so the `getD` never supplies its default. -/
def new_cpu (memory : Memory) : CPUState :=
  { a := 0, x := 0, y := 0, pc := (read_word memory 0xFFFC).getD 0
    sp := 0xFD, status := 0x24, memory := memory }

/-- The signed 8-bit branch displacement applied to the program counter:
`(self.pc as i32 + offset as i32) as u16` in the source. -/
def branch_dest (pc offset : Nat) : Nat :=
  (((pc : Int) + (if offset < 0x80 then (offset : Int) else (offset : Int) - 0x100)).emod 0x10000).toNat

/-- The dispatch `match opcode` of `CPU::execute`, applied to the state
after the opcode fetch has advanced `PC`.  `none` models a `panic!`
(`invalid_opcode`, the unknown-opcode catch-all, or a panicking memory
access).  The source's single 256-arm match is split here by the
opcode's high nibble into sixteen groups (`execute_opcode` dispatches to
them); the arms themselves are verbatim and in the source's order, and
every opcode the source match does not list falls to a group's final
`none` (= the source's catch-all `panic!`). -/
def execute_opcode_0x (opcode : Nat) (s : CPUState) : Option (CPUState × Nat) :=
  match opcode with
    | 0x00 => do -- BRK
      let s := { s with pc := (s.pc + 1) % 0x10000 }
      let s ← push_word_to_stack s s.pc
      let s ← push_byte_to_stack s (s.status ||| 0x10)
      let s := { s with status := s.status ||| 0x04 }
      let v ← read_word s.memory 0xFFFE
      some ({ s with pc := v }, 7)
    | 0x01 => do -- ORA Indirect,X
      let b ← read_byte s.memory s.pc
      let addr := (b + s.x) % 0x100
      let s := { s with pc := (s.pc + 1) % 0x10000 }
      let indirect_addr ← read_word_zero_page s.memory addr
      let v ← read_byte s.memory indirect_addr
      let s := { s with a := s.a ||| v }
      let s := { s with status := update_zero_and_negative_flags s.status s.a }
      some (s, 6)
    | 0x02 => some (s, 2) -- Future Extension / Unofficial Opcode
    | 0x03 => some (s, 8) -- Unofficial Opcode
    | 0x04 => some ({ s with pc := (s.pc + 1) % 0x10000 }, 3) -- NOP Zero Page
    | 0x05 => do -- ORA Zero Page
      let addr ← read_byte s.memory s.pc
      let s := { s with pc := (s.pc + 1) % 0x10000 }
      let v ← read_byte s.memory addr
      let s := { s with a := s.a ||| v }
      let s := { s with status := update_zero_and_negative_flags s.status s.a }
      some (s, 3)
    | 0x06 => do -- ASL Zero Page
      let addr ← read_byte s.memory s.pc
      let s := { s with pc := (s.pc + 1) % 0x10000 }
      let value ← read_byte s.memory addr
      let s := { s with status := set_carry_flag s.status (value &&& 0x80 != 0) }
      let value := (value <<< 1) &&& 0xFF
      let m ← write_byte s.memory addr value
      let s := { s with memory := m }
      let s := { s with status := update_zero_and_negative_flags s.status value }
      some (s, 5)
    | 0x07 => some (s, 5) -- Unofficial Opcode
    | 0x08 => do -- PHP
      let s ← push_byte_to_stack s (s.status ||| 0x10)
      some (s, 3)
    | 0x09 => do -- ORA Immediate
      let v ← read_byte s.memory s.pc
      let s := { s with a := s.a ||| v }
      let s := { s with pc := (s.pc + 1) % 0x10000 }
      let s := { s with status := update_zero_and_negative_flags s.status s.a }
      some (s, 2)
    | 0x0A => -- ASL Accumulator
      let s := { s with status := set_carry_flag s.status (s.a &&& 0x80 != 0) }
      let s := { s with a := (s.a <<< 1) &&& 0xFF }
      let s := { s with status := update_zero_and_negative_flags s.status s.a }
      some (s, 2)
    | 0x0B => some (s, 2) -- Unofficial Opcode
    | 0x0C => some ({ s with pc := (s.pc + 2) % 0x10000 }, 4) -- NOP Absolute
    | 0x0D => do -- ORA Absolute
      let addr ← read_word s.memory s.pc
      let s := { s with pc := (s.pc + 2) % 0x10000 }
      let v ← read_byte s.memory addr
      let s := { s with a := s.a ||| v }
      let s := { s with status := update_zero_and_negative_flags s.status s.a }
      some (s, 4)
    | 0x0E => do -- ASL Absolute
      let addr ← read_word s.memory s.pc
      let s := { s with pc := (s.pc + 2) % 0x10000 }
      let value ← read_byte s.memory addr
      let s := { s with status := set_carry_flag s.status (value &&& 0x80 != 0) }
      let value := (value <<< 1) &&& 0xFF
      let m ← write_byte s.memory addr value
      let s := { s with memory := m }
      let s := { s with status := update_zero_and_negative_flags s.status value }
      some (s, 6)
    | 0x0F => some (s, 6) -- Unofficial Opcode
    | _ => none -- catch-all: panic! (Unknown opcode)

def execute_opcode_1x (opcode : Nat) (s : CPUState) : Option (CPUState × Nat) :=
  match opcode with
    | 0x10 => do -- BPL (Branch if Positive)
      let offset ← read_byte s.memory s.pc
      let s := { s with pc := (s.pc + 1) % 0x10000 }
      if s.status &&& 0x80 == 0 then
        let old_pc := s.pc
        let s := { s with pc := branch_dest s.pc offset }
        if old_pc &&& 0xFF00 != s.pc &&& 0xFF00 then
          some (s, 3)
        else
          some (s, 2)
      else
        some (s, 2)
    | 0x11 => do -- ORA Indirect,Y
      let base_addr ← read_byte s.memory s.pc
      let s := { s with pc := (s.pc + 1) % 0x10000 }
      let w ← read_word_zero_page s.memory base_addr
      let addr := (w + s.y) % 0x10000
      let v ← read_byte s.memory addr
      let s := { s with a := s.a ||| v }
      let s := { s with status := update_zero_and_negative_flags s.status s.a }
      some (s, 5)
    | 0x12 => some (s, 2) -- Future Extension / Unofficial Opcode
    | 0x13 => some (s, 8) -- Unofficial Opcode
    | 0x14 => some ({ s with pc := (s.pc + 1) % 0x10000 }, 4) -- NOP Zero Page,X
    | 0x15 => do -- ORA Zero Page,X
      let b ← read_byte s.memory s.pc
      let addr := (b + s.x) % 0x100
      let s := { s with pc := (s.pc + 1) % 0x10000 }
      let v ← read_byte s.memory addr
      let s := { s with a := s.a ||| v }
      let s := { s with status := update_zero_and_negative_flags s.status s.a }
      some (s, 4)
    | 0x16 => do -- ASL Zero Page,X
      let b ← read_byte s.memory s.pc
      let addr := (b + s.x) % 0x100
      let s := { s with pc := (s.pc + 1) % 0x10000 }
      let value ← read_byte s.memory addr
      let s := { s with status := set_carry_flag s.status (value &&& 0x80 != 0) }
      let value := (value <<< 1) &&& 0xFF
      let m ← write_byte s.memory addr value
      let s := { s with memory := m }
      let s := { s with status := update_zero_and_negative_flags s.status value }
      some (s, 6)
    | 0x17 => some (s, 6) -- Unofficial Opcode
    | 0x18 => some ({ s with status := s.status &&& 0xFE }, 2) -- CLC
    | 0x19 => do -- ORA Absolute,Y
      let w ← read_word s.memory s.pc
      let addr := (w + s.y) % 0x10000
      let s := { s with pc := (s.pc + 2) % 0x10000 }
      let v ← read_byte s.memory addr
      let s := { s with a := s.a ||| v }
      let s := { s with status := update_zero_and_negative_flags s.status s.a }
      some (s, 4)
    | 0x1A => some (s, 2) -- NOP
    | 0x1B => some (s, 7) -- Unofficial Opcode
    | 0x1C => some ({ s with pc := (s.pc + 2) % 0x10000 }, 4) -- NOP Absolute,X
    | 0x1D => do -- ORA Absolute,X
      let w ← read_word s.memory s.pc
      let addr := (w + s.x) % 0x10000
      let s := { s with pc := (s.pc + 2) % 0x10000 }
      let v ← read_byte s.memory addr
      let s := { s with a := s.a ||| v }
      let s := { s with status := update_zero_and_negative_flags s.status s.a }
      some (s, 4)
    | 0x1E => do -- ASL Absolute,X
      let w ← read_word s.memory s.pc
      let addr := (w + s.x) % 0x10000
      let s := { s with pc := (s.pc + 2) % 0x10000 }
      let value ← read_byte s.memory addr
      let s := { s with status := set_carry_flag s.status (value &&& 0x80 != 0) }
      let value := (value <<< 1) &&& 0xFF
      let m ← write_byte s.memory addr value
      let s := { s with memory := m }
      let s := { s with status := update_zero_and_negative_flags s.status value }
      some (s, 7)
    | 0x1F => some (s, 7) -- Unofficial Opcode
    | _ => none -- catch-all: panic! (Unknown opcode)

def execute_opcode_2x (opcode : Nat) (s : CPUState) : Option (CPUState × Nat) :=
  match opcode with
    | 0x20 => do -- JSR (Jump to Subroutine)
      let target_addr ← read_word s.memory s.pc
      let s := { s with pc := (s.pc + 2) % 0x10000 }
      let s ← push_byte_to_stack s ((((s.pc + 0x10000 - 1) % 0x10000) >>> 8) &&& 0xFF)
      let s ← push_byte_to_stack s (((s.pc + 0x10000 - 1) % 0x10000) &&& 0xFF)
      some ({ s with pc := target_addr }, 6)
    | 0x21 => do -- AND Indirect,X
      let b ← read_byte s.memory s.pc
      let base_addr := (b + s.x) % 0x100
      let s := { s with pc := (s.pc + 1) % 0x10000 }
      let addr ← read_word_zero_page s.memory base_addr
      let v ← read_byte s.memory addr
      let s := { s with a := s.a &&& v }
      let s := { s with status := update_zero_and_negative_flags s.status s.a }
      some (s, 6)
    | 0x22 => invalid_opcode
    | 0x23 => invalid_opcode
    | 0x24 => do -- BIT Zero Page
      let addr ← read_byte s.memory s.pc
      let s := { s with pc := (s.pc + 1) % 0x10000 }
      let value ← read_byte s.memory addr
      let s := { s with status := set_zero_flag s.status ((s.a &&& value) == 0) }
      let s := { s with status := set_overflow_flag s.status (value &&& 0x40 != 0) }
      let s := { s with status := set_negative_flag s.status (value &&& 0x80 != 0) }
      some (s, 3)
    | 0x25 => do -- AND Zero Page
      let addr ← read_byte s.memory s.pc
      let s := { s with pc := (s.pc + 1) % 0x10000 }
      let v ← read_byte s.memory addr
      let s := { s with a := s.a &&& v }
      let s := { s with status := update_zero_and_negative_flags s.status s.a }
      some (s, 3)
    | 0x26 => do -- ROL Zero Page
      let addr ← read_byte s.memory s.pc
      let s := { s with pc := (s.pc + 1) % 0x10000 }
      let value ← read_byte s.memory addr
      let carry := value &&& 0x80 != 0
      let value := ((value <<< 1) &&& 0xFF) ||| (s.status &&& 0x01)
      let s := { s with status := set_carry_flag s.status carry }
      let m ← write_byte s.memory addr value
      let s := { s with memory := m }
      let s := { s with status := update_zero_and_negative_flags s.status value }
      some (s, 5)
    | 0x27 => some (s, 0) -- Unofficial Opcode (returns 0 cycles in the source)
    | 0x28 => do -- PLP (Pull Processor Status)
      let sp' := (s.sp + 1) % 0x100
      let v ← read_byte s.memory (0x0100 ||| sp')
      some ({ s with sp := sp', status := v ||| 0x20 }, 4)
    | 0x29 => do -- AND Immediate
      let v ← read_byte s.memory s.pc
      let s := { s with a := s.a &&& v }
      let s := { s with pc := (s.pc + 1) % 0x10000 }
      let s := { s with status := update_zero_and_negative_flags s.status s.a }
      some (s, 2)
    | 0x2A => -- ROL Accumulator
      let carry := s.a &&& 0x80 != 0
      let s := { s with a := ((s.a <<< 1) &&& 0xFF) ||| (s.status &&& 0x01) }
      let s := { s with status := set_carry_flag s.status carry }
      let s := { s with status := update_zero_and_negative_flags s.status s.a }
      some (s, 2)
    | 0x2B => invalid_opcode
    | 0x2C => do -- BIT Absolute
      let addr ← read_word s.memory s.pc
      let s := { s with pc := (s.pc + 2) % 0x10000 }
      let value ← read_byte s.memory addr
      let s := { s with status := set_zero_flag s.status ((s.a &&& value) == 0) }
      let s := { s with status := set_overflow_flag s.status (value &&& 0x40 != 0) }
      let s := { s with status := set_negative_flag s.status (value &&& 0x80 != 0) }
      some (s, 4)
    | 0x2D => do -- AND Absolute
      let addr ← read_word s.memory s.pc
      let s := { s with pc := (s.pc + 2) % 0x10000 }
      let v ← read_byte s.memory addr
      let s := { s with a := s.a &&& v }
      let s := { s with status := update_zero_and_negative_flags s.status s.a }
      some (s, 4)
    | 0x2E => do -- ROL Absolute
      let addr ← read_word s.memory s.pc
      let s := { s with pc := (s.pc + 2) % 0x10000 }
      let value ← read_byte s.memory addr
      let carry := value &&& 0x80 != 0
      let value := ((value <<< 1) &&& 0xFF) ||| (s.status &&& 0x01)
      let s := { s with status := set_carry_flag s.status carry }
      let m ← write_byte s.memory addr value
      let s := { s with memory := m }
      let s := { s with status := update_zero_and_negative_flags s.status value }
      some (s, 6)
    | 0x2F => invalid_opcode
    | _ => none -- catch-all: panic! (Unknown opcode)

def execute_opcode_3x (opcode : Nat) (s : CPUState) : Option (CPUState × Nat) :=
  match opcode with
    | 0x30 => do -- BMI (Branch if Minus)
      let offset ← read_byte s.memory s.pc
      let s := { s with pc := (s.pc + 1) % 0x10000 }
      if s.status &&& 0x80 != 0 then
        let old_pc := s.pc
        let s := { s with pc := branch_dest s.pc offset }
        let _ := branch_ticks old_pc s.pc
        some (s, 2)
      else
        some (s, 2)
    | 0x31 => do -- AND Indirect,Y
      let base_addr ← read_byte s.memory s.pc
      let s := { s with pc := (s.pc + 1) % 0x10000 }
      let w ← read_word_zero_page s.memory base_addr
      let addr := (w + s.y) % 0x10000
      let v ← read_byte s.memory addr
      let s := { s with a := s.a &&& v }
      let s := { s with status := update_zero_and_negative_flags s.status s.a }
      some (s, 5)
    | 0x32 => invalid_opcode
    | 0x33 => invalid_opcode
    | 0x34 => invalid_opcode
    | 0x35 => do -- AND Zero Page,X
      let b ← read_byte s.memory s.pc
      let addr := (b + s.x) % 0x100
      let s := { s with pc := (s.pc + 1) % 0x10000 }
      let v ← read_byte s.memory addr
      let s := { s with a := s.a &&& v }
      let s := { s with status := update_zero_and_negative_flags s.status s.a }
      some (s, 4)
    | 0x36 => do -- ROL Zero Page,X
      let b ← read_byte s.memory s.pc
      let addr := (b + s.x) % 0x100
      let s := { s with pc := (s.pc + 1) % 0x10000 }
      let value ← read_byte s.memory addr
      let carry := value &&& 0x80 != 0
      let value := ((value <<< 1) &&& 0xFF) ||| (s.status &&& 0x01)
      let s := { s with status := set_carry_flag s.status carry }
      let m ← write_byte s.memory addr value
      let s := { s with memory := m }
      let s := { s with status := update_zero_and_negative_flags s.status value }
      some (s, 6)
    | 0x37 => invalid_opcode
    | 0x38 => some ({ s with status := s.status ||| 0x01 }, 2) -- SEC
    | 0x39 => do -- AND Absolute,Y
      let w ← read_word s.memory s.pc
      let addr := (w + s.y) % 0x10000
      let s := { s with pc := (s.pc + 2) % 0x10000 }
      let v ← read_byte s.memory addr
      let s := { s with a := s.a &&& v }
      let s := { s with status := update_zero_and_negative_flags s.status s.a }
      some (s, 4)
    | 0x3A => invalid_opcode
    | 0x3B => invalid_opcode
    | 0x3C => invalid_opcode
    | 0x3D => do -- AND Absolute,X
      let w ← read_word s.memory s.pc
      let addr := (w + s.x) % 0x10000
      let s := { s with pc := (s.pc + 2) % 0x10000 }
      let v ← read_byte s.memory addr
      let s := { s with a := s.a &&& v }
      let s := { s with status := update_zero_and_negative_flags s.status s.a }
      some (s, 4)
    | 0x3E => do -- ROL (Rotate Left) - Absolute,X
      let addr ← read_word s.memory s.pc
      let s := { s with pc := (s.pc + 2) % 0x10000 }
      let address := (addr + s.x) % 0x10000
      let value ← read_byte s.memory address
      let sr := rotate_left s value
      let s := sr.1
      let m ← write_byte s.memory address sr.2
      some ({ s with memory := m }, 7)
    | 0x3F => invalid_opcode
    | _ => none -- catch-all: panic! (Unknown opcode)

def execute_opcode_4x (opcode : Nat) (s : CPUState) : Option (CPUState × Nat) :=
  match opcode with
    | 0x40 => do -- RTI (Return from Interrupt)
      let p ← pop_byte_from_stack s
      let s := { p.1 with status := p.2 ||| 0x20 }
      let q ← pop_byte_from_stack s
      let lo := q.2
      let r ← pop_byte_from_stack q.1
      let hi := r.2
      some ({ r.1 with pc := (hi <<< 8) ||| lo }, 6)
    | 0x41 => do -- EOR Indirect,X
      let b ← read_byte s.memory s.pc
      let base_addr := (b + s.x) % 0x100
      let s := { s with pc := (s.pc + 1) % 0x10000 }
      let addr ← read_word_zero_page s.memory base_addr
      let v ← read_byte s.memory addr
      let s := { s with a := s.a ^^^ v }
      let s := { s with status := update_zero_and_negative_flags s.status s.a }
      some (s, 6)
    | 0x42 => invalid_opcode
    | 0x43 => invalid_opcode
    | 0x44 => invalid_opcode
    | 0x45 => do -- EOR Zero Page
      let addr ← read_byte s.memory s.pc
      let s := { s with pc := (s.pc + 1) % 0x10000 }
      let v ← read_byte s.memory addr
      let s := { s with a := s.a ^^^ v }
      let s := { s with status := update_zero_and_negative_flags s.status s.a }
      some (s, 3)
    | 0x46 => do -- LSR Zero Page
      let addr ← read_byte s.memory s.pc
      let s := { s with pc := (s.pc + 1) % 0x10000 }
      let value ← read_byte s.memory addr
      let s := { s with status := set_carry_flag s.status (value &&& 0x01 != 0) }
      let value := value >>> 1
      let m ← write_byte s.memory addr value
      let s := { s with memory := m }
      let s := { s with status := update_zero_and_negative_flags s.status value }
      some (s, 5)
    | 0x47 => invalid_opcode
    | 0x48 => do -- PHA (Push Accumulator)
      let s ← push_byte_to_stack s s.a
      some (s, 3)
    | 0x49 => do -- EOR Immediate
      let v ← read_byte s.memory s.pc
      let s := { s with a := s.a ^^^ v }
      let s := { s with pc := (s.pc + 1) % 0x10000 }
      let s := { s with status := update_zero_and_negative_flags s.status s.a }
      some (s, 2)
    | 0x4A => -- LSR Accumulator (the source returns 7 cycles here)
      let s := { s with status := set_carry_flag s.status (s.a &&& 0x01 != 0) }
      let s := { s with a := s.a >>> 1 }
      let s := { s with status := update_zero_and_negative_flags s.status s.a }
      some (s, 7)
    | 0x4B => invalid_opcode
    | 0x4C => do -- JMP Absolute
      let addr ← read_word s.memory s.pc
      some ({ s with pc := addr }, 3)
    | 0x4D => do -- EOR Absolute
      let addr ← read_word s.memory s.pc
      let s := { s with pc := (s.pc + 2) % 0x10000 }
      let v ← read_byte s.memory addr
      let s := { s with a := s.a ^^^ v }
      let s := { s with status := update_zero_and_negative_flags s.status s.a }
      some (s, 4)
    | 0x4E => do -- LSR Absolute
      let addr ← read_word s.memory s.pc
      let s := { s with pc := (s.pc + 2) % 0x10000 }
      let value ← read_byte s.memory addr
      let s := { s with status := set_carry_flag s.status (value &&& 0x01 != 0) }
      let value := value >>> 1
      let m ← write_byte s.memory addr value
      let s := { s with memory := m }
      let s := { s with status := update_zero_and_negative_flags s.status value }
      some (s, 6)
    | 0x4F => invalid_opcode
    | _ => none -- catch-all: panic! (Unknown opcode)

def execute_opcode_5x (opcode : Nat) (s : CPUState) : Option (CPUState × Nat) :=
  match opcode with
    | 0x50 => do -- BVC (Branch if Overflow Clear)
      let offset ← read_byte s.memory s.pc
      let s := { s with pc := (s.pc + 1) % 0x10000 }
      if s.status &&& 0x40 == 0 then
        let old_pc := s.pc
        let s := { s with pc := branch_dest s.pc offset }
        let _ := branch_ticks old_pc s.pc
        some (s, 2)
      else
        some (s, 2)
    | 0x51 => do -- EOR (Exclusive OR) - (Indirect), Y
      let base ← read_byte s.memory s.pc
      let w ← read_word_zero_page s.memory base
      let addr := (w + s.y) % 0x10000
      let value ← read_byte s.memory addr
      let s := { s with a := s.a ^^^ value }
      let s := { s with status := update_zero_and_negative_flags s.status s.a }
      let s := { s with pc := (s.pc + 1) % 0x10000 }
      some (s, 5)
    | 0x55 => do -- EOR (Exclusive OR) - Zero Page, X
      let b ← read_byte s.memory s.pc
      let addr := (b + s.x) % 0x100
      let value ← read_byte s.memory addr
      let s := { s with a := s.a ^^^ value }
      let s := { s with status := update_zero_and_negative_flags s.status s.a }
      let s := { s with pc := (s.pc + 1) % 0x10000 }
      some (s, 4)
    | 0x56 => do -- LSR (Logical Shift Right) - Zero Page, X
      let b ← read_byte s.memory s.pc
      let addr := (b + s.x) % 0x100
      let value ← read_byte s.memory addr
      let s := { s with status := set_carry_flag s.status (value &&& 1 != 0) }
      let result := value >>> 1
      let m ← write_byte s.memory addr result
      let s := { s with memory := m }
      let s := { s with status := update_zero_and_negative_flags s.status result }
      let s := { s with pc := (s.pc + 1) % 0x10000 }
      some (s, 6)
    | 0x58 => -- CLI (with the source's extra `self.pc += 1`)
      let s := { s with status := s.status &&& 0xFB }
      some ({ s with pc := (s.pc + 1) % 0x10000 }, 2)
    | 0x59 => do -- EOR (Exclusive OR) - Absolute, Y
      let lo ← read_byte s.memory s.pc
      let s := { s with pc := (s.pc + 1) % 0x10000 }
      let hi ← read_byte s.memory s.pc
      let s := { s with pc := (s.pc + 1) % 0x10000 }
      let addr := (((hi <<< 8) ||| lo) + s.y) % 0x10000
      let value ← read_byte s.memory addr
      let s := { s with a := s.a ^^^ value }
      let s := { s with status := update_zero_and_negative_flags s.status s.a }
      some (s, 4)
    | 0x5D => do -- EOR (Exclusive OR) - Absolute, X
      let lo ← read_byte s.memory s.pc
      let s := { s with pc := (s.pc + 1) % 0x10000 }
      let hi ← read_byte s.memory s.pc
      let s := { s with pc := (s.pc + 1) % 0x10000 }
      let addr := (((hi <<< 8) ||| lo) + s.x) % 0x10000
      let value ← read_byte s.memory addr
      let s := { s with a := s.a ^^^ value }
      let s := { s with status := update_zero_and_negative_flags s.status s.a }
      some (s, 4)
    | _ => none -- catch-all: panic! (Unknown opcode)

def execute_opcode_6x (opcode : Nat) (s : CPUState) : Option (CPUState × Nat) :=
  match opcode with
    | 0x60 => do -- RTS (Return from Subroutine)
      let q ← pop_byte_from_stack s
      let lo := q.2
      let r ← pop_byte_from_stack q.1
      let hi := r.2
      let s := { r.1 with pc := (hi <<< 8) ||| lo }
      let s := { s with pc := (s.pc + 1) % 0x10000 }
      some (s, 6)
    | 0x61 => do -- ADC (Add with Carry) - (Indirect, X)
      let b ← read_byte s.memory s.pc
      let base := (b + s.x) % 0x100
      let addr ← read_word_zero_page s.memory base
      let value ← read_byte s.memory addr
      let s := adc s value
      let s := { s with pc := (s.pc + 1) % 0x10000 }
      some (s, 6)
    | 0x65 => do -- ADC (Add with Carry) - Zero Page
      let addr ← read_byte s.memory s.pc
      let value ← read_byte s.memory addr
      let s := adc s value
      let s := { s with pc := (s.pc + 1) % 0x10000 }
      some (s, 3)
    | 0x66 => do -- ROR (Rotate Right) - Zero Page
      let addr ← read_byte s.memory s.pc
      let value ← read_byte s.memory addr
      let carry := value &&& 1 != 0
      let result := (value >>> 1) ||| ((s.status &&& 0x01) <<< 7)
      let m ← write_byte s.memory addr result
      let s := { s with memory := m }
      let s := { s with status := set_carry_flag s.status carry }
      let s := { s with status := update_zero_and_negative_flags s.status result }
      let s := { s with pc := (s.pc + 1) % 0x10000 }
      some (s, 5)
    | 0x68 => do -- PLA (with the source's extra `self.pc += 1`)
      let p ← pop_byte_from_stack s
      let s := { p.1 with a := p.2 }
      let s := { s with status := update_zero_and_negative_flags s.status s.a }
      let s := { s with pc := (s.pc + 1) % 0x10000 }
      some (s, 4)
    | 0x69 => do -- ADC (Add with Carry) - Immediate
      let value ← read_byte s.memory s.pc
      let s := adc s value
      let s := { s with pc := (s.pc + 1) % 0x10000 }
      some (s, 2)
    | 0x6A => -- ROR Accumulator (with the source's extra `self.pc += 1`)
      let carry := s.a &&& 1 != 0
      let s := { s with a := (s.a >>> 1) ||| ((s.status &&& 0x01) <<< 7) }
      let s := { s with status := set_carry_flag s.status carry }
      let s := { s with status := update_zero_and_negative_flags s.status s.a }
      some ({ s with pc := (s.pc + 1) % 0x10000 }, 2)
    | 0x6B => do -- ARR (unofficial)
      let value ← read_byte s.memory s.pc
      let s := { s with a := s.a &&& value }
      let s := { s with a := (s.a >>> 1) ||| ((s.a &&& 1) <<< 7) }
      let s := { s with status := update_zero_and_negative_flags s.status s.a }
      some ({ s with pc := (s.pc + 1) % 0x10000 }, 2)
    | 0x6C => do -- JMP (Jump) - Indirect
      let lo ← read_byte s.memory s.pc
      let s := { s with pc := (s.pc + 1) % 0x10000 }
      let hi ← read_byte s.memory s.pc
      let s := { s with pc := (s.pc + 1) % 0x10000 }
      let ptr := (hi <<< 8) ||| lo
      let addr_lo ← read_byte s.memory ptr
      let addr_hi ← read_byte s.memory ((ptr &&& 0xFF00) ||| ((ptr + 1) &&& 0xFF))
      some ({ s with pc := (addr_hi <<< 8) ||| addr_lo }, 5)
    | 0x6D => do -- ADC (Absolute)
      let addr ← read_word s.memory s.pc
      let value ← read_byte s.memory addr
      let s := adc s value
      let s := { s with pc := (s.pc + 2) % 0x10000 }
      some (s, 4)
    | 0x6E => do -- ROR (Rotate Right) Absolute
      let addr ← read_word s.memory s.pc
      let value ← read_byte s.memory addr
      let sr := ror s value
      let s := sr.1
      let m ← write_byte s.memory addr sr.2
      let s := { s with memory := m }
      some ({ s with pc := (s.pc + 2) % 0x10000 }, 6)
    | 0x6F => do -- RRA (unofficial)
      let addr ← read_word s.memory s.pc
      let value ← read_byte s.memory addr
      let sr := ror s value
      let s := sr.1
      let m ← write_byte s.memory addr sr.2
      let s := { s with memory := m }
      let s := adc s sr.2
      some ({ s with pc := (s.pc + 2) % 0x10000 }, 6)
    | _ => none -- catch-all: panic! (Unknown opcode)

def execute_opcode_7x (opcode : Nat) (s : CPUState) : Option (CPUState × Nat) :=
  match opcode with
    | 0x70 => do -- BVS (Branch if Overflow Set)
      let offset ← read_byte s.memory s.pc
      let s := { s with pc := (s.pc + 1) % 0x10000 }
      if s.status &&& 0x40 != 0 then
        let old_pc := s.pc
        let s := { s with pc := branch_dest s.pc offset }
        let _ := branch_ticks old_pc s.pc
        some (s, 2)
      else
        some (s, 2)
    | 0x71 => do -- ADC (Add with Carry) - (Indirect), Y
      let base ← read_byte s.memory s.pc
      let w ← read_word_zero_page s.memory base
      let addr := (w + s.y) % 0x10000
      let value ← read_byte s.memory addr
      let s := adc s value
      let s := { s with pc := (s.pc + 1) % 0x10000 }
      some (s, 5)
    | 0x75 => do -- ADC (Add with Carry) - Zero Page, X
      let b ← read_byte s.memory s.pc
      let addr := (b + s.x) % 0x100
      let value ← read_byte s.memory addr
      let s := adc s value
      let s := { s with pc := (s.pc + 1) % 0x10000 }
      some (s, 4)
    | 0x76 => do -- ROR (Rotate Right) - Zero Page, X
      let b ← read_byte s.memory s.pc
      let addr := (b + s.x) % 0x100
      let value ← read_byte s.memory addr
      let carry := value &&& 1 != 0
      let result := (value >>> 1) ||| ((s.status &&& 0x01) <<< 7)
      let m ← write_byte s.memory addr result
      let s := { s with memory := m }
      let s := { s with status := set_carry_flag s.status carry }
      let s := { s with status := update_zero_and_negative_flags s.status result }
      let s := { s with pc := (s.pc + 1) % 0x10000 }
      some (s, 6)
    | 0x77 => do -- RRA (Rotate Right then ADC) - Zero Page,X
      let base ← read_byte s.memory s.pc
      let s := { s with pc := (s.pc + 1) % 0x10000 }
      let address ← read_word_zero_page s.memory ((base + s.x) % 0xFF)
      let value ← read_byte s.memory address
      let sr := rotate_right s value
      let s := sr.1
      let m ← write_byte s.memory address sr.2
      let s := { s with memory := m }
      let s := adc s sr.2
      some (s, 6)
    | 0x78 => -- SEI (with the source's extra `self.pc += 1`)
      let s := { s with status := s.status ||| 0x04 }
      some ({ s with pc := (s.pc + 1) % 0x10000 }, 2)
    | 0x79 => do -- ADC (Add with Carry) - Absolute, Y
      let lo ← read_byte s.memory s.pc
      let s := { s with pc := (s.pc + 1) % 0x10000 }
      let hi ← read_byte s.memory s.pc
      let s := { s with pc := (s.pc + 1) % 0x10000 }
      let addr := (((hi <<< 8) ||| lo) + s.y) % 0x10000
      let value ← read_byte s.memory addr
      let s := adc s value
      some (s, 4)
    | 0x7D => do -- ADC (Add with Carry) - Absolute, X
      let lo ← read_byte s.memory s.pc
      let s := { s with pc := (s.pc + 1) % 0x10000 }
      let hi ← read_byte s.memory s.pc
      let s := { s with pc := (s.pc + 1) % 0x10000 }
      let addr := (((hi <<< 8) ||| lo) + s.x) % 0x10000
      let value ← read_byte s.memory addr
      let s := adc s value
      some (s, 4)
    | _ => none -- catch-all: panic! (Unknown opcode)

def execute_opcode_8x (opcode : Nat) (s : CPUState) : Option (CPUState × Nat) :=
  match opcode with
    | 0x80 => some ({ s with pc := (s.pc + 1) % 0x10000 }, 2) -- NOP Immediate
    | 0x81 => do -- STA (Store Accumulator) - (Indirect, X)
      let b ← read_byte s.memory s.pc
      let base := (b + s.x) % 0x100
      let addr ← read_word_zero_page s.memory base
      let m ← write_byte s.memory addr s.a
      let s := { s with memory := m }
      let s := { s with pc := (s.pc + 1) % 0x10000 }
      some (s, 6)
    | 0x84 => do -- STY (Store Y Register) - Zero Page
      let addr ← read_byte s.memory s.pc
      let m ← write_byte s.memory addr s.y
      let s := { s with memory := m }
      let s := { s with pc := (s.pc + 1) % 0x10000 }
      some (s, 3)
    | 0x85 => do -- STA (Store Accumulator) - Zero Page
      let addr ← read_byte s.memory s.pc
      let m ← write_byte s.memory addr s.a
      let s := { s with memory := m }
      let s := { s with pc := (s.pc + 1) % 0x10000 }
      some (s, 3)
    | 0x86 => do -- STX (Store X Register) - Zero Page
      let addr ← read_byte s.memory s.pc
      let m ← write_byte s.memory addr s.x
      let s := { s with memory := m }
      let s := { s with pc := (s.pc + 1) % 0x10000 }
      some (s, 3)
    | 0x88 => -- DEY (Decrement Y Register)
      let s := { s with y := (s.y + 0xFF) % 0x100 }
      let s := { s with status := update_zero_and_negative_flags s.status s.y }
      some (s, 2)
    | 0x8A => -- TXA (with the source's extra `self.pc += 1`)
      let s := { s with a := s.x }
      let s := { s with status := update_zero_and_negative_flags s.status s.a }
      some ({ s with pc := (s.pc + 1) % 0x10000 }, 2)
    | 0x8C => do -- STY (Store Y Register) - Absolute
      let lo ← read_byte s.memory s.pc
      let s := { s with pc := (s.pc + 1) % 0x10000 }
      let hi ← read_byte s.memory s.pc
      let s := { s with pc := (s.pc + 1) % 0x10000 }
      let addr := (hi <<< 8) ||| lo
      let m ← write_byte s.memory addr s.y
      some ({ s with memory := m }, 4)
    | 0x8D => do -- STA (Store Accumulator) - Absolute
      let lo ← read_byte s.memory s.pc
      let s := { s with pc := (s.pc + 1) % 0x10000 }
      let hi ← read_byte s.memory s.pc
      let s := { s with pc := (s.pc + 1) % 0x10000 }
      let addr := (hi <<< 8) ||| lo
      let m ← write_byte s.memory addr s.a
      some ({ s with memory := m }, 4)
    | 0x8E => do -- STX (Store X Register) - Absolute
      let lo ← read_byte s.memory s.pc
      let s := { s with pc := (s.pc + 1) % 0x10000 }
      let hi ← read_byte s.memory s.pc
      let s := { s with pc := (s.pc + 1) % 0x10000 }
      let addr := (hi <<< 8) ||| lo
      let m ← write_byte s.memory addr s.x
      some ({ s with memory := m }, 4)
    | _ => none -- catch-all: panic! (Unknown opcode)

def execute_opcode_9x (opcode : Nat) (s : CPUState) : Option (CPUState × Nat) :=
  match opcode with
    | 0x90 => do -- BCC (Branch if Carry Clear)
      let offset ← read_byte s.memory s.pc
      let s := { s with pc := (s.pc + 1) % 0x10000 }
      if s.status &&& 0x01 == 0 then
        let old_pc := s.pc
        let s := { s with pc := branch_dest s.pc offset }
        let _ := branch_ticks old_pc s.pc
        some (s, 2)
      else
        some (s, 2)
    | 0x91 => do -- STA (Store Accumulator) - (Indirect), Y
      let base ← read_byte s.memory s.pc
      let w ← read_word_zero_page s.memory base
      let addr := (w + s.y) % 0x10000
      let m ← write_byte s.memory addr s.a
      let s := { s with memory := m }
      let s := { s with pc := (s.pc + 1) % 0x10000 }
      some (s, 6)
    | 0x94 => do -- STY (Store Y Register) - Zero Page, X
      let b ← read_byte s.memory s.pc
      let addr := (b + s.x) % 0x100
      let m ← write_byte s.memory addr s.y
      let s := { s with memory := m }
      let s := { s with pc := (s.pc + 1) % 0x10000 }
      some (s, 4)
    | 0x95 => do -- STA (Store Accumulator) - Zero Page, X
      let b ← read_byte s.memory s.pc
      let addr := (b + s.x) % 0x100
      let m ← write_byte s.memory addr s.a
      let s := { s with memory := m }
      let s := { s with pc := (s.pc + 1) % 0x10000 }
      some (s, 4)
    | 0x96 => do -- STX (Store X Register) - Zero Page, Y
      let b ← read_byte s.memory s.pc
      let addr := (b + s.y) % 0x100
      let m ← write_byte s.memory addr s.x
      let s := { s with memory := m }
      let s := { s with pc := (s.pc + 1) % 0x10000 }
      some (s, 4)
    | 0x98 => -- TYA (with the source's extra `self.pc += 1`)
      let s := { s with a := s.y }
      let s := { s with status := update_zero_and_negative_flags s.status s.a }
      some ({ s with pc := (s.pc + 1) % 0x10000 }, 2)
    | 0x99 => do -- STA (Store Accumulator) - Absolute, Y
      let lo ← read_byte s.memory s.pc
      let s := { s with pc := (s.pc + 1) % 0x10000 }
      let hi ← read_byte s.memory s.pc
      let s := { s with pc := (s.pc + 1) % 0x10000 }
      let addr := (((hi <<< 8) ||| lo) + s.y) % 0x10000
      let m ← write_byte s.memory addr s.a
      some ({ s with memory := m }, 5)
    | 0x9A => -- TXS (with the source's extra `self.pc += 1`)
      let s := { s with sp := s.x }
      some ({ s with pc := (s.pc + 1) % 0x10000 }, 2)
    | 0x9D => do -- STA (Store Accumulator) - Absolute, X
      let lo ← read_byte s.memory s.pc
      let s := { s with pc := (s.pc + 1) % 0x10000 }
      let hi ← read_byte s.memory s.pc
      let s := { s with pc := (s.pc + 1) % 0x10000 }
      let addr := (((hi <<< 8) ||| lo) + s.x) % 0x10000
      let m ← write_byte s.memory addr s.a
      some ({ s with memory := m }, 5)
    | 0x9E => invalid_opcode
    | 0x9F => invalid_opcode
    | _ => none -- catch-all: panic! (Unknown opcode)

def execute_opcode_Ax (opcode : Nat) (s : CPUState) : Option (CPUState × Nat) :=
  match opcode with
    | 0xA0 => do -- LDY (Load Y Register) - Immediate
      let v ← read_byte s.memory s.pc
      let s := { s with y := v }
      let s := { s with pc := (s.pc + 1) % 0x10000 }
      let s := { s with status := update_zero_and_negative_flags s.status s.y }
      some (s, 2)
    | 0xA1 => do -- LDA (Load Accumulator) - Indirect,X
      let base ← read_byte s.memory s.pc
      let s := { s with pc := (s.pc + 1) % 0x10000 }
      let address ← read_word_zero_page s.memory (((base + s.x) % 0x100) % 0xFF)
      let v ← read_byte s.memory address
      let s := { s with a := v }
      let s := { s with status := update_zero_and_negative_flags s.status s.a }
      some (s, 6)
    | 0xA2 => do -- LDX (Load X Register) - Immediate
      let v ← read_byte s.memory s.pc
      let s := { s with x := v }
      let s := { s with pc := (s.pc + 1) % 0x10000 }
      let s := { s with status := update_zero_and_negative_flags s.status s.x }
      some (s, 2)
    | 0xA3 => invalid_opcode
    | 0xA4 => do -- LDY (Load Y Register) - Zero Page
      let address ← read_byte s.memory s.pc
      let s := { s with pc := (s.pc + 1) % 0x10000 }
      let v ← read_byte s.memory address
      let s := { s with y := v }
      let s := { s with status := update_zero_and_negative_flags s.status s.y }
      some (s, 3)
    | 0xA5 => do -- LDA (Load Accumulator) - Zero Page
      let address ← read_byte s.memory s.pc
      let s := { s with pc := (s.pc + 1) % 0x10000 }
      let v ← read_byte s.memory address
      let s := { s with a := v }
      let s := { s with status := update_zero_and_negative_flags s.status s.a }
      some (s, 3)
    | 0xA6 => do -- LDX (Load X Register) - Zero Page
      let address ← read_byte s.memory s.pc
      let s := { s with pc := (s.pc + 1) % 0x10000 }
      let v ← read_byte s.memory address
      let s := { s with x := v }
      let s := { s with status := update_zero_and_negative_flags s.status s.x }
      some (s, 3)
    | 0xA7 => invalid_opcode
    | 0xA8 => -- TAY (Transfer Accumulator to Y)
      let s := { s with y := s.a }
      let s := { s with status := update_zero_and_negative_flags s.status s.y }
      some (s, 2)
    | 0xA9 => do -- LDA (Load Accumulator) - Immediate
      let v ← read_byte s.memory s.pc
      let s := { s with a := v }
      let s := { s with pc := (s.pc + 1) % 0x10000 }
      let s := { s with status := update_zero_and_negative_flags s.status s.a }
      some (s, 2)
    | 0xAA => -- TAX (Transfer Accumulator to X)
      let s := { s with x := s.a }
      let s := { s with status := update_zero_and_negative_flags s.status s.x }
      some (s, 2)
    | 0xAB => invalid_opcode
    | 0xAC => do -- LDY (Load Y Register) - Absolute
      let address ← read_word s.memory s.pc
      let s := { s with pc := (s.pc + 2) % 0x10000 }
      let v ← read_byte s.memory address
      let s := { s with y := v }
      let s := { s with status := update_zero_and_negative_flags s.status s.y }
      some (s, 4)
    | 0xAD => do -- LDA (Load Accumulator) - Absolute
      let address ← read_word s.memory s.pc
      let s := { s with pc := (s.pc + 2) % 0x10000 }
      let v ← read_byte s.memory address
      let s := { s with a := v }
      let s := { s with status := update_zero_and_negative_flags s.status s.a }
      some (s, 4)
    | 0xAE => do -- LDX (Load X Register) - Absolute
      let address ← read_word s.memory s.pc
      let s := { s with pc := (s.pc + 2) % 0x10000 }
      let v ← read_byte s.memory address
      let s := { s with x := v }
      let s := { s with status := update_zero_and_negative_flags s.status s.x }
      some (s, 4)
    | 0xAF => invalid_opcode
    | _ => none -- catch-all: panic! (Unknown opcode)

def execute_opcode_Bx (opcode : Nat) (s : CPUState) : Option (CPUState × Nat) :=
  match opcode with
    | 0xB0 => do -- BCS (Branch if Carry Set)
      let offset ← read_byte s.memory s.pc
      let s := { s with pc := (s.pc + 1) % 0x10000 }
      if s.status &&& 0x01 != 0 then
        let old_pc := s.pc
        let s := { s with pc := branch_dest s.pc offset }
        let _ := branch_ticks old_pc s.pc
        some (s, 2)
      else
        some (s, 2)
    | 0xB1 => do -- LDA (Load Accumulator) - Indirect,Y
      let base ← read_byte s.memory s.pc
      let s := { s with pc := (s.pc + 1) % 0x10000 }
      let w ← read_word_zero_page s.memory base
      let address := (w + s.y) % 0x10000
      let v ← read_byte s.memory address
      let s := { s with a := v }
      let s := { s with status := update_zero_and_negative_flags s.status s.a }
      some (s, 5)
    | 0xB2 => invalid_opcode
    | 0xB3 => invalid_opcode
    | 0xB4 => do -- LDY (Load Y Register) - Zero Page,X (`(base + x) % 0xFF`)
      let base ← read_byte s.memory s.pc
      let s := { s with pc := (s.pc + 1) % 0x10000 }
      let address := ((base + s.x) % 0x100) % 0xFF
      let v ← read_byte s.memory address
      let s := { s with y := v }
      let s := { s with status := update_zero_and_negative_flags s.status s.y }
      some (s, 4)
    | 0xB5 => do -- LDA (Load Accumulator) - Zero Page,X (`(base + x) % 0xFF`)
      let base ← read_byte s.memory s.pc
      let s := { s with pc := (s.pc + 1) % 0x10000 }
      let address := ((base + s.x) % 0x100) % 0xFF
      let v ← read_byte s.memory address
      let s := { s with a := v }
      let s := { s with status := update_zero_and_negative_flags s.status s.a }
      some (s, 4)
    | 0xB6 => do -- LDX (Load X Register) - Zero Page,Y (`(base + y) % 0xFF`)
      let base ← read_byte s.memory s.pc
      let s := { s with pc := (s.pc + 1) % 0x10000 }
      let address := ((base + s.y) % 0x100) % 0xFF
      let v ← read_byte s.memory address
      let s := { s with x := v }
      let s := { s with status := update_zero_and_negative_flags s.status s.x }
      some (s, 4)
    | 0xB7 => invalid_opcode
    | 0xB8 => some ({ s with status := s.status &&& 0xBF }, 2) -- CLV
    | 0xB9 => do -- LDA (Load Accumulator) - Absolute,Y
      let base ← read_word s.memory s.pc
      let s := { s with pc := (s.pc + 2) % 0x10000 }
      let address := (base + s.y) % 0x10000
      let v ← read_byte s.memory address
      let s := { s with a := v }
      let s := { s with status := update_zero_and_negative_flags s.status s.a }
      some (s, 4)
    | 0xBA => -- TSX (Transfer Stack Pointer to X)
      let s := { s with x := s.sp }
      let s := { s with status := update_zero_and_negative_flags s.status s.x }
      some (s, 2)
    | 0xBB => invalid_opcode
    | 0xBC => do -- LDY (Load Y Register) - Absolute,X
      let base ← read_word s.memory s.pc
      let s := { s with pc := (s.pc + 2) % 0x10000 }
      let address := (base + s.x) % 0x10000
      let v ← read_byte s.memory address
      let s := { s with y := v }
      let s := { s with status := update_zero_and_negative_flags s.status s.y }
      some (s, 4)
    | 0xBD => do -- LDA (Load Accumulator) - Absolute,X
      let base ← read_word s.memory s.pc
      let s := { s with pc := (s.pc + 2) % 0x10000 }
      let address := (base + s.x) % 0x10000
      let v ← read_byte s.memory address
      let s := { s with a := v }
      let s := { s with status := update_zero_and_negative_flags s.status s.a }
      some (s, 4)
    | 0xBE => do -- LDX (Load X Register) - Absolute,Y
      let base ← read_word s.memory s.pc
      let s := { s with pc := (s.pc + 2) % 0x10000 }
      let address := (base + s.y) % 0x10000
      let v ← read_byte s.memory address
      let s := { s with x := v }
      let s := { s with status := update_zero_and_negative_flags s.status s.x }
      some (s, 4)
    | 0xBF => invalid_opcode
    | _ => none -- catch-all: panic! (Unknown opcode)

def execute_opcode_Cx (opcode : Nat) (s : CPUState) : Option (CPUState × Nat) :=
  match opcode with
    | 0xC0 => do -- CPY (Compare Y Register) - Immediate
      let value ← read_byte s.memory s.pc
      let s := { s with pc := (s.pc + 1) % 0x10000 }
      let s := compare s s.y value
      some (s, 2)
    | 0xC1 => do -- CMP (Compare Accumulator) - Indirect,X (`(base + x) % 0xFF`)
      let base ← read_byte s.memory s.pc
      let s := { s with pc := (s.pc + 1) % 0x10000 }
      let address ← read_word_zero_page s.memory (((base + s.x) % 0x100) % 0xFF)
      let value ← read_byte s.memory address
      let s := compare s s.a value
      some (s, 6)
    | 0xC2 => invalid_opcode
    | 0xC3 => invalid_opcode
    | 0xC4 => do -- CPY (Compare Y Register) - Zero Page (source returns 4)
      let address ← read_byte s.memory s.pc
      let s := { s with pc := (s.pc + 1) % 0x10000 }
      let value ← read_byte s.memory address
      let s := compare s s.y value
      some (s, 4)
    | 0xC5 => do -- CMP (Compare Accumulator) - Zero Page
      let address ← read_byte s.memory s.pc
      let s := { s with pc := (s.pc + 1) % 0x10000 }
      let value ← read_byte s.memory address
      let s := compare s s.a value
      some (s, 3)
    | 0xC6 => do -- DEC (Decrement Memory) - Zero Page
      let address ← read_byte s.memory s.pc
      let s := { s with pc := (s.pc + 1) % 0x10000 }
      let v ← read_byte s.memory address
      let value := (v + 0xFF) % 0x100
      let m ← write_byte s.memory address value
      let s := { s with memory := m }
      let s := { s with status := update_zero_and_negative_flags s.status value }
      some (s, 5)
    | 0xC7 => invalid_opcode
    | 0xC8 => -- INY (Increment Y Register)
      let s := { s with y := (s.y + 1) % 0x100 }
      let s := { s with status := update_zero_and_negative_flags s.status s.y }
      some (s, 2)
    | 0xC9 => do -- CMP (Compare Accumulator) - Immediate
      let value ← read_byte s.memory s.pc
      let s := { s with pc := (s.pc + 1) % 0x10000 }
      let s := compare s s.a value
      some (s, 2)
    | 0xCA => -- DEX (Decrement X Register)
      let s := { s with x := (s.x + 0xFF) % 0x100 }
      let s := { s with status := update_zero_and_negative_flags s.status s.x }
      some (s, 2)
    | 0xCB => invalid_opcode
    | 0xCC => do -- CPY (Compare Y Register) - Absolute
      let address ← read_word s.memory s.pc
      let s := { s with pc := (s.pc + 2) % 0x10000 }
      let value ← read_byte s.memory address
      let s := compare s s.y value
      some (s, 4)
    | 0xCD => do -- CMP (Compare Accumulator) - Absolute
      let address ← read_word s.memory s.pc
      let s := { s with pc := (s.pc + 2) % 0x10000 }
      let value ← read_byte s.memory address
      let s := compare s s.a value
      some (s, 4)
    | 0xCE => do -- DEC (Decrement Memory) - Absolute
      let address ← read_word s.memory s.pc
      let s := { s with pc := (s.pc + 2) % 0x10000 }
      let v ← read_byte s.memory address
      let value := (v + 0xFF) % 0x100
      let m ← write_byte s.memory address value
      let s := { s with memory := m }
      let s := { s with status := update_zero_and_negative_flags s.status value }
      some (s, 6)
    | 0xCF => invalid_opcode
    | _ => none -- catch-all: panic! (Unknown opcode)

def execute_opcode_Dx (opcode : Nat) (s : CPUState) : Option (CPUState × Nat) :=
  match opcode with
    | 0xD0 => do -- BNE (Branch if Not Equal)
      let offset ← read_byte s.memory s.pc
      let s := { s with pc := (s.pc + 1) % 0x10000 }
      if s.status &&& 0x02 == 0 then
        let old_pc := s.pc
        let s := { s with pc := branch_dest s.pc offset }
        let _ := branch_ticks old_pc s.pc
        some (s, 2)
      else
        some (s, 2)
    | 0xD1 => do -- CMP (Compare Accumulator) - Indirect,Y
      let base ← read_byte s.memory s.pc
      let s := { s with pc := (s.pc + 1) % 0x10000 }
      let w ← read_word_zero_page s.memory base
      let address := (w + s.y) % 0x10000
      let value ← read_byte s.memory address
      let s := compare s s.a value
      some (s, 5)
    | 0xD2 => invalid_opcode
    | 0xD3 => invalid_opcode
    | 0xD4 => invalid_opcode
    | 0xD5 => do -- CMP (Compare Accumulator) - Zero Page,X (`(base + x) % 0xFF`)
      let base ← read_byte s.memory s.pc
      let s := { s with pc := (s.pc + 1) % 0x10000 }
      let address := ((base + s.x) % 0x100) % 0xFF
      let value ← read_byte s.memory address
      let s := compare s s.a value
      some (s, 4)
    | 0xD6 => do -- DEC (Decrement Memory) - Zero Page,X (`(base + x) % 0xFF`)
      let base ← read_byte s.memory s.pc
      let s := { s with pc := (s.pc + 1) % 0x10000 }
      let address := ((base + s.x) % 0x100) % 0xFF
      let v ← read_byte s.memory address
      let value := (v + 0xFF) % 0x100
      let m ← write_byte s.memory address value
      let s := { s with memory := m }
      let s := { s with status := update_zero_and_negative_flags s.status value }
      some (s, 6)
    | 0xD7 => invalid_opcode
    | 0xD8 => some ({ s with status := s.status &&& 0xF7 }, 2) -- CLD
    | 0xD9 => do -- CMP (Compare Accumulator) - Absolute,Y
      let base ← read_word s.memory s.pc
      let s := { s with pc := (s.pc + 2) % 0x10000 }
      let address := (base + s.y) % 0x10000
      let value ← read_byte s.memory address
      let s := compare s s.a value
      some (s, 4)
    | 0xDA => invalid_opcode
    | 0xDB => invalid_opcode
    | 0xDC => invalid_opcode
    | 0xDE => do -- DEC (Decrement Memory) - Absolute,X
      let base ← read_word s.memory s.pc
      let s := { s with pc := (s.pc + 2) % 0x10000 }
      let address := (base + s.x) % 0x10000
      let v ← read_byte s.memory address
      let value := (v + 0xFF) % 0x100
      let m ← write_byte s.memory address value
      let s := { s with memory := m }
      let s := { s with status := update_zero_and_negative_flags s.status value }
      some (s, 7)
    | 0xDF => invalid_opcode
    | _ => none -- catch-all: panic! (Unknown opcode)

def execute_opcode_Ex (opcode : Nat) (s : CPUState) : Option (CPUState × Nat) :=
  match opcode with
    | 0xE0 => do -- CPX (Compare X Register) - Immediate
      let value ← read_byte s.memory s.pc
      let s := { s with pc := (s.pc + 1) % 0x10000 }
      let s := compare s s.x value
      some (s, 2)
    | 0xE1 => do -- SBC (Subtract with Carry) - Indexed Indirect,X (`% 0xFF`)
      let base ← read_byte s.memory s.pc
      let s := { s with pc := (s.pc + 1) % 0x10000 }
      let address ← read_word_zero_page s.memory (((base + s.x) % 0x100) % 0xFF)
      let value ← read_byte s.memory address
      let s := sbc s value
      some (s, 6)
    | 0xE2 => invalid_opcode
    | 0xE3 => invalid_opcode
    | 0xE4 => do -- CPX (Compare X Register) - Zero Page
      let address ← read_byte s.memory s.pc
      let s := { s with pc := (s.pc + 1) % 0x10000 }
      let value ← read_byte s.memory address
      let s := compare s s.x value
      some (s, 3)
    | 0xE5 => do -- SBC (Subtract with Carry) - Zero Page
      let address ← read_byte s.memory s.pc
      let s := { s with pc := (s.pc + 1) % 0x10000 }
      let value ← read_byte s.memory address
      let s := sbc s value
      some (s, 3)
    | 0xE6 => do -- INC (Increment Memory) - Zero Page
      let address ← read_byte s.memory s.pc
      let s := { s with pc := (s.pc + 1) % 0x10000 }
      let v ← read_byte s.memory address
      let value := (v + 1) % 0x100
      let m ← write_byte s.memory address value
      let s := { s with memory := m }
      let s := { s with status := update_zero_and_negative_flags s.status value }
      some (s, 5)
    | 0xE7 => invalid_opcode
    | 0xE8 => -- INX (Increment X Register)
      let s := { s with x := (s.x + 1) % 0x100 }
      let s := { s with status := update_zero_and_negative_flags s.status s.x }
      some (s, 2)
    | 0xE9 => do -- SBC (Subtract with Carry) - Immediate
      let value ← read_byte s.memory s.pc
      let s := { s with pc := (s.pc + 1) % 0x10000 }
      let s := sbc s value
      some (s, 2)
    | 0xEA => some (s, 2) -- NOP (No Operation)
    | 0xEB => invalid_opcode
    | 0xEC => do -- CPX (Compare X Register) - Absolute
      let address ← read_word s.memory s.pc
      let s := { s with pc := (s.pc + 2) % 0x10000 }
      let value ← read_byte s.memory address
      let s := compare s s.x value
      some (s, 4)
    | 0xED => do -- SBC (Subtract with Carry) - Absolute
      let address ← read_word s.memory s.pc
      let s := { s with pc := (s.pc + 2) % 0x10000 }
      let value ← read_byte s.memory address
      let s := sbc s value
      some (s, 4)
    | 0xEE => do -- INC (Increment Memory) - Absolute
      let address ← read_word s.memory s.pc
      let s := { s with pc := (s.pc + 2) % 0x10000 }
      let v ← read_byte s.memory address
      let value := (v + 1) % 0x100
      let m ← write_byte s.memory address value
      let s := { s with memory := m }
      let s := { s with status := update_zero_and_negative_flags s.status value }
      some (s, 6)
    | 0xEF => invalid_opcode
    | _ => none -- catch-all: panic! (Unknown opcode)

def execute_opcode_Fx (opcode : Nat) (s : CPUState) : Option (CPUState × Nat) :=
  match opcode with
    | 0xF0 => do -- BEQ (Branch if Equal)
      let offset ← read_byte s.memory s.pc
      let s := { s with pc := (s.pc + 1) % 0x10000 }
      if s.status &&& 0x02 != 0 then
        let old_pc := s.pc
        let s := { s with pc := branch_dest s.pc offset }
        let _ := branch_ticks old_pc s.pc
        some (s, 2)
      else
        some (s, 2)
    | 0xF1 => do -- SBC (Subtract with Carry) - Indirect Indexed,Y
      let base ← read_byte s.memory s.pc
      let s := { s with pc := (s.pc + 1) % 0x10000 }
      let w ← read_word_zero_page s.memory base
      let address := (w + s.y) % 0x10000
      let value ← read_byte s.memory address
      let s := sbc s value
      some (s, 5)
    | 0xF2 => invalid_opcode
    | 0xF3 => invalid_opcode
    | 0xF4 => invalid_opcode
    | 0xF5 => do -- SBC (Subtract with Carry) - Zero Page,X (wrapping_add)
      let base ← read_byte s.memory s.pc
      let s := { s with pc := (s.pc + 1) % 0x10000 }
      let address := (base + s.x) % 0x100
      let value ← read_byte s.memory address
      let s := sbc s value
      some (s, 4)
    | 0xF6 => do -- INC (Increment Memory) - Zero Page,X (wrapping_add)
      let base ← read_byte s.memory s.pc
      let s := { s with pc := (s.pc + 1) % 0x10000 }
      let address := (base + s.x) % 0x100
      let v ← read_byte s.memory address
      let value := (v + 1) % 0x100
      let m ← write_byte s.memory address value
      let s := { s with memory := m }
      let s := { s with status := update_zero_and_negative_flags s.status value }
      some (s, 6)
    | 0xF7 => invalid_opcode
    | 0xF8 => some ({ s with status := s.status ||| 0x08 }, 2) -- SED
    | 0xF9 => do -- SBC (Subtract with Carry) - Absolute,Y
      let w ← read_word s.memory s.pc
      let address := (w + s.y) % 0x10000
      let s := { s with pc := (s.pc + 2) % 0x10000 }
      let value ← read_byte s.memory address
      let s := sbc s value
      some (s, 4)
    | 0xFA => invalid_opcode
    | 0xFB => invalid_opcode
    | 0xFC => invalid_opcode
    | 0xFD => do -- SBC (Subtract with Carry) - Absolute, X
      let w ← read_word s.memory s.pc
      let addr := (w + s.x) % 0x10000
      let value ← read_byte s.memory addr
      let s := sbc s value
      let s := { s with pc := (s.pc + 2) % 0x10000 }
      some (s, 4)
    | 0xFE => do -- INC (Increment Memory) - Absolute,X
      let base_address ← read_word s.memory s.pc
      let s := { s with pc := (s.pc + 2) % 0x10000 }
      let address := (base_address + s.x) % 0x10000
      let v ← read_byte s.memory address
      let value := (v + 1) % 0x100
      let m ← write_byte s.memory address value
      let s := { s with memory := m }
      let s := { s with status := update_zero_and_negative_flags s.status value }
      some (s, 7)
    | 0xFF => invalid_opcode
    | _ => none -- catch-all: panic! (Unknown opcode)

def execute_opcode (opcode : Nat) (s : CPUState) : Option (CPUState × Nat) :=
  match opcode >>> 4 with
  | 0x0 => execute_opcode_0x opcode s
  | 0x1 => execute_opcode_1x opcode s
  | 0x2 => execute_opcode_2x opcode s
  | 0x3 => execute_opcode_3x opcode s
  | 0x4 => execute_opcode_4x opcode s
  | 0x5 => execute_opcode_5x opcode s
  | 0x6 => execute_opcode_6x opcode s
  | 0x7 => execute_opcode_7x opcode s
  | 0x8 => execute_opcode_8x opcode s
  | 0x9 => execute_opcode_9x opcode s
  | 0xA => execute_opcode_Ax opcode s
  | 0xB => execute_opcode_Bx opcode s
  | 0xC => execute_opcode_Cx opcode s
  | 0xD => execute_opcode_Dx opcode s
  | 0xE => execute_opcode_Ex opcode s
  | 0xF => execute_opcode_Fx opcode s
  | _ => none -- catch-all: panic! (Unknown opcode)

/-- `CPU::execute`: fetch the opcode at `PC`, advance `PC`, then dispatch
through `execute_opcode`. -/
def execute (s0 : CPUState) : Option (CPUState × Nat) :=
  match read_byte s0.memory s0.pc with
  | none => none
  | some opcode => execute_opcode opcode { s0 with pc := (s0.pc + 1) % 0x10000 }

/-- States reachable from a legal RESET (`CPU::new` on an arbitrary
memory) by successful `execute` steps. -/
inductive Reachable : CPUState → Prop where
  | base (m : Memory) : Reachable (new_cpu m)
  | step {s : CPUState} {p : CPUState × Nat} :
      Reachable s → execute s = some p → Reachable p.1

/-! ### Bit-5 (the always-set status bit) preservation lemmas -/

lemma tb5_c01 : Nat.testBit 0x01 5 = false := by decide

lemma tb5_c02 : Nat.testBit 0x02 5 = false := by decide

lemma tb5_c04 : Nat.testBit 0x04 5 = false := by decide

lemma tb5_c08 : Nat.testBit 0x08 5 = false := by decide

lemma tb5_c20 : Nat.testBit 0x20 5 = true := by decide

lemma tb5_c40 : Nat.testBit 0x40 5 = false := by decide

lemma tb5_c80 : Nat.testBit 0x80 5 = false := by decide

lemma tb5_cFE : Nat.testBit 0xFE 5 = true := by decide

lemma tb5_cFD : Nat.testBit 0xFD 5 = true := by decide

lemma tb5_cFB : Nat.testBit 0xFB 5 = true := by decide

lemma tb5_cF7 : Nat.testBit 0xF7 5 = true := by decide

lemma tb5_cBF : Nat.testBit 0xBF 5 = true := by decide

lemma tb5_c7F : Nat.testBit 0x7F 5 = true := by decide

lemma update_carry_flag_tb5 (st : Nat) (b : Bool) :
    (update_carry_flag st b).testBit 5 = st.testBit 5 := by
  cases b <;>
    simp [update_carry_flag, Nat.testBit_or, Nat.testBit_and, tb5_c01, tb5_cFE]

lemma set_zero_flag_tb5 (st : Nat) (b : Bool) :
    (set_zero_flag st b).testBit 5 = st.testBit 5 := by
  cases b <;>
    simp [set_zero_flag, Nat.testBit_or, Nat.testBit_and, tb5_c02, tb5_cFD]

lemma set_negative_flag_tb5 (st : Nat) (b : Bool) :
    (set_negative_flag st b).testBit 5 = st.testBit 5 := by
  cases b <;>
    simp [set_negative_flag, Nat.testBit_or, Nat.testBit_and, tb5_c80, tb5_c7F]

lemma set_carry_flag_tb5 (st : Nat) (b : Bool) :
    (set_carry_flag st b).testBit 5 = st.testBit 5 := by
  cases b <;>
    simp [set_carry_flag, Nat.testBit_or, Nat.testBit_and, tb5_c01, tb5_cFE]

lemma set_overflow_flag_tb5 (st : Nat) (b : Bool) :
    (set_overflow_flag st b).testBit 5 = st.testBit 5 := by
  cases b <;>
    simp [set_overflow_flag, Nat.testBit_or, Nat.testBit_and, tb5_c40, tb5_cBF]

lemma update_zero_and_negative_flags_tb5 (st v : Nat) :
    (update_zero_and_negative_flags st v).testBit 5 = st.testBit 5 := by
  simp [update_zero_and_negative_flags, set_zero_flag_tb5, set_negative_flag_tb5]

lemma update_overflow_flag_tb5 (st a b r : Nat) :
    (update_overflow_flag st a b r).testBit 5 = st.testBit 5 := by
  simp [update_overflow_flag, set_overflow_flag_tb5]

lemma adc_tb5 (s : CPUState) (v : Nat) :
    (adc s v).status.testBit 5 = s.status.testBit 5 := by
  simp [adc, update_carry_flag_tb5, update_zero_and_negative_flags_tb5,
    update_overflow_flag_tb5]

lemma sbc_tb5 (s : CPUState) (v : Nat) :
    (sbc s v).status.testBit 5 = s.status.testBit 5 := by
  simp [sbc, set_carry_flag_tb5, set_overflow_flag_tb5,
    update_zero_and_negative_flags_tb5]

lemma compare_tb5 (s : CPUState) (r v : Nat) :
    (compare s r v).status.testBit 5 = s.status.testBit 5 := by
  simp [compare, set_carry_flag_tb5, update_zero_and_negative_flags_tb5]

lemma ror_tb5 (s : CPUState) (v : Nat) :
    (ror s v).1.status.testBit 5 = s.status.testBit 5 := by
  simp [ror, update_zero_and_negative_flags_tb5]

lemma rotate_left_tb5 (s : CPUState) (v : Nat) :
    (rotate_left s v).1.status.testBit 5 = s.status.testBit 5 := by
  unfold rotate_left
  dsimp only
  split <;> split <;>
    simp [Nat.testBit_or, Nat.testBit_and, tb5_c01, tb5_cFE,
      update_zero_and_negative_flags_tb5]

lemma rotate_right_tb5 (s : CPUState) (v : Nat) :
    (rotate_right s v).1.status.testBit 5 = s.status.testBit 5 := by
  simp [rotate_right, set_carry_flag_tb5, set_zero_flag_tb5, set_negative_flag_tb5]

lemma execute_opcode_0x_bit5 (opcode : Nat) (s : CPUState) (p : CPUState × Nat)
    (h : execute_opcode_0x opcode s = some p)
    (h5 : s.status.testBit 5 = true) : p.1.status.testBit 5 = true := by
  unfold execute_opcode_0x at h
  split at h
  all_goals
    simp only [invalid_opcode, push_byte_to_stack, push_word_to_stack,
      pop_byte_from_stack, Option.bind_eq_bind', Option.bind_eq_some,
      Option.map_eq_some', Option.some.injEq, reduceCtorEq] at h
  all_goals
    (repeat' first
      | (obtain ⟨_, ⟨_, _, _, _, rfl⟩, h⟩ := h)
      | (obtain ⟨_, ⟨_, _, rfl⟩, h⟩ := h)
      | (obtain rfl := h)
      | (replace h := Option.some.inj h)
      | (obtain ⟨_, _, h⟩ := h)
      | (split at h)) <;>
    (first
      | assumption
      | simp_all only [update_carry_flag_tb5, set_zero_flag_tb5,
          set_negative_flag_tb5, set_carry_flag_tb5, set_overflow_flag_tb5,
          update_zero_and_negative_flags_tb5, update_overflow_flag_tb5,
          adc_tb5, sbc_tb5, compare_tb5, ror_tb5, rotate_left_tb5,
          rotate_right_tb5, Nat.testBit_or, Nat.testBit_and,
          tb5_c01, tb5_c02, tb5_c04, tb5_c08, tb5_c20, tb5_c40, tb5_c80,
          tb5_cFE, tb5_cFD, tb5_cFB, tb5_cF7, tb5_cBF, tb5_c7F,
          Bool.or_true, Bool.true_or, Bool.or_false, Bool.false_or,
          Bool.and_true, Bool.true_and])

lemma execute_opcode_1x_bit5 (opcode : Nat) (s : CPUState) (p : CPUState × Nat)
    (h : execute_opcode_1x opcode s = some p)
    (h5 : s.status.testBit 5 = true) : p.1.status.testBit 5 = true := by
  unfold execute_opcode_1x at h
  split at h
  all_goals
    simp only [invalid_opcode, push_byte_to_stack, push_word_to_stack,
      pop_byte_from_stack, Option.bind_eq_bind', Option.bind_eq_some,
      Option.map_eq_some', Option.some.injEq, reduceCtorEq] at h
  all_goals
    (repeat' first
      | (obtain ⟨_, ⟨_, _, _, _, rfl⟩, h⟩ := h)
      | (obtain ⟨_, ⟨_, _, rfl⟩, h⟩ := h)
      | (obtain rfl := h)
      | (replace h := Option.some.inj h)
      | (obtain ⟨_, _, h⟩ := h)
      | (split at h)) <;>
    (first
      | assumption
      | simp_all only [update_carry_flag_tb5, set_zero_flag_tb5,
          set_negative_flag_tb5, set_carry_flag_tb5, set_overflow_flag_tb5,
          update_zero_and_negative_flags_tb5, update_overflow_flag_tb5,
          adc_tb5, sbc_tb5, compare_tb5, ror_tb5, rotate_left_tb5,
          rotate_right_tb5, Nat.testBit_or, Nat.testBit_and,
          tb5_c01, tb5_c02, tb5_c04, tb5_c08, tb5_c20, tb5_c40, tb5_c80,
          tb5_cFE, tb5_cFD, tb5_cFB, tb5_cF7, tb5_cBF, tb5_c7F,
          Bool.or_true, Bool.true_or, Bool.or_false, Bool.false_or,
          Bool.and_true, Bool.true_and])

lemma execute_opcode_2x_bit5 (opcode : Nat) (s : CPUState) (p : CPUState × Nat)
    (h : execute_opcode_2x opcode s = some p)
    (h5 : s.status.testBit 5 = true) : p.1.status.testBit 5 = true := by
  unfold execute_opcode_2x at h
  split at h
  all_goals
    simp only [invalid_opcode, push_byte_to_stack, push_word_to_stack,
      pop_byte_from_stack, Option.bind_eq_bind', Option.bind_eq_some,
      Option.map_eq_some', Option.some.injEq, reduceCtorEq] at h
  all_goals
    (repeat' first
      | (obtain ⟨_, ⟨_, _, _, _, rfl⟩, h⟩ := h)
      | (obtain ⟨_, ⟨_, _, rfl⟩, h⟩ := h)
      | (obtain rfl := h)
      | (replace h := Option.some.inj h)
      | (obtain ⟨_, _, h⟩ := h)
      | (split at h)) <;>
    (first
      | assumption
      | simp_all only [update_carry_flag_tb5, set_zero_flag_tb5,
          set_negative_flag_tb5, set_carry_flag_tb5, set_overflow_flag_tb5,
          update_zero_and_negative_flags_tb5, update_overflow_flag_tb5,
          adc_tb5, sbc_tb5, compare_tb5, ror_tb5, rotate_left_tb5,
          rotate_right_tb5, Nat.testBit_or, Nat.testBit_and,
          tb5_c01, tb5_c02, tb5_c04, tb5_c08, tb5_c20, tb5_c40, tb5_c80,
          tb5_cFE, tb5_cFD, tb5_cFB, tb5_cF7, tb5_cBF, tb5_c7F,
          Bool.or_true, Bool.true_or, Bool.or_false, Bool.false_or,
          Bool.and_true, Bool.true_and])

lemma execute_opcode_3x_bit5 (opcode : Nat) (s : CPUState) (p : CPUState × Nat)
    (h : execute_opcode_3x opcode s = some p)
    (h5 : s.status.testBit 5 = true) : p.1.status.testBit 5 = true := by
  unfold execute_opcode_3x at h
  split at h
  all_goals
    simp only [invalid_opcode, push_byte_to_stack, push_word_to_stack,
      pop_byte_from_stack, Option.bind_eq_bind', Option.bind_eq_some,
      Option.map_eq_some', Option.some.injEq, reduceCtorEq] at h
  all_goals
    (repeat' first
      | (obtain ⟨_, ⟨_, _, _, _, rfl⟩, h⟩ := h)
      | (obtain ⟨_, ⟨_, _, rfl⟩, h⟩ := h)
      | (obtain rfl := h)
      | (replace h := Option.some.inj h)
      | (obtain ⟨_, _, h⟩ := h)
      | (split at h)) <;>
    (first
      | assumption
      | simp_all only [update_carry_flag_tb5, set_zero_flag_tb5,
          set_negative_flag_tb5, set_carry_flag_tb5, set_overflow_flag_tb5,
          update_zero_and_negative_flags_tb5, update_overflow_flag_tb5,
          adc_tb5, sbc_tb5, compare_tb5, ror_tb5, rotate_left_tb5,
          rotate_right_tb5, Nat.testBit_or, Nat.testBit_and,
          tb5_c01, tb5_c02, tb5_c04, tb5_c08, tb5_c20, tb5_c40, tb5_c80,
          tb5_cFE, tb5_cFD, tb5_cFB, tb5_cF7, tb5_cBF, tb5_c7F,
          Bool.or_true, Bool.true_or, Bool.or_false, Bool.false_or,
          Bool.and_true, Bool.true_and])

lemma execute_opcode_4x_bit5 (opcode : Nat) (s : CPUState) (p : CPUState × Nat)
    (h : execute_opcode_4x opcode s = some p)
    (h5 : s.status.testBit 5 = true) : p.1.status.testBit 5 = true := by
  unfold execute_opcode_4x at h
  split at h
  all_goals
    simp only [invalid_opcode, push_byte_to_stack, push_word_to_stack,
      pop_byte_from_stack, Option.bind_eq_bind', Option.bind_eq_some,
      Option.map_eq_some', Option.some.injEq, reduceCtorEq] at h
  all_goals
    (repeat' first
      | (obtain ⟨_, ⟨_, _, _, _, rfl⟩, h⟩ := h)
      | (obtain ⟨_, ⟨_, _, rfl⟩, h⟩ := h)
      | (obtain rfl := h)
      | (replace h := Option.some.inj h)
      | (obtain ⟨_, _, h⟩ := h)
      | (split at h)) <;>
    (first
      | assumption
      | simp_all only [update_carry_flag_tb5, set_zero_flag_tb5,
          set_negative_flag_tb5, set_carry_flag_tb5, set_overflow_flag_tb5,
          update_zero_and_negative_flags_tb5, update_overflow_flag_tb5,
          adc_tb5, sbc_tb5, compare_tb5, ror_tb5, rotate_left_tb5,
          rotate_right_tb5, Nat.testBit_or, Nat.testBit_and,
          tb5_c01, tb5_c02, tb5_c04, tb5_c08, tb5_c20, tb5_c40, tb5_c80,
          tb5_cFE, tb5_cFD, tb5_cFB, tb5_cF7, tb5_cBF, tb5_c7F,
          Bool.or_true, Bool.true_or, Bool.or_false, Bool.false_or,
          Bool.and_true, Bool.true_and])

lemma execute_opcode_5x_bit5 (opcode : Nat) (s : CPUState) (p : CPUState × Nat)
    (h : execute_opcode_5x opcode s = some p)
    (h5 : s.status.testBit 5 = true) : p.1.status.testBit 5 = true := by
  unfold execute_opcode_5x at h
  split at h
  all_goals
    simp only [invalid_opcode, push_byte_to_stack, push_word_to_stack,
      pop_byte_from_stack, Option.bind_eq_bind', Option.bind_eq_some,
      Option.map_eq_some', Option.some.injEq, reduceCtorEq] at h
  all_goals
    (repeat' first
      | (obtain ⟨_, ⟨_, _, _, _, rfl⟩, h⟩ := h)
      | (obtain ⟨_, ⟨_, _, rfl⟩, h⟩ := h)
      | (obtain rfl := h)
      | (replace h := Option.some.inj h)
      | (obtain ⟨_, _, h⟩ := h)
      | (split at h)) <;>
    (first
      | assumption
      | simp_all only [update_carry_flag_tb5, set_zero_flag_tb5,
          set_negative_flag_tb5, set_carry_flag_tb5, set_overflow_flag_tb5,
          update_zero_and_negative_flags_tb5, update_overflow_flag_tb5,
          adc_tb5, sbc_tb5, compare_tb5, ror_tb5, rotate_left_tb5,
          rotate_right_tb5, Nat.testBit_or, Nat.testBit_and,
          tb5_c01, tb5_c02, tb5_c04, tb5_c08, tb5_c20, tb5_c40, tb5_c80,
          tb5_cFE, tb5_cFD, tb5_cFB, tb5_cF7, tb5_cBF, tb5_c7F,
          Bool.or_true, Bool.true_or, Bool.or_false, Bool.false_or,
          Bool.and_true, Bool.true_and])

lemma execute_opcode_6x_bit5 (opcode : Nat) (s : CPUState) (p : CPUState × Nat)
    (h : execute_opcode_6x opcode s = some p)
    (h5 : s.status.testBit 5 = true) : p.1.status.testBit 5 = true := by
  unfold execute_opcode_6x at h
  split at h
  all_goals
    simp only [invalid_opcode, push_byte_to_stack, push_word_to_stack,
      pop_byte_from_stack, Option.bind_eq_bind', Option.bind_eq_some,
      Option.map_eq_some', Option.some.injEq, reduceCtorEq] at h
  all_goals
    (repeat' first
      | (obtain ⟨_, ⟨_, _, _, _, rfl⟩, h⟩ := h)
      | (obtain ⟨_, ⟨_, _, rfl⟩, h⟩ := h)
      | (obtain rfl := h)
      | (replace h := Option.some.inj h)
      | (obtain ⟨_, _, h⟩ := h)
      | (split at h)) <;>
    (first
      | assumption
      | simp_all only [update_carry_flag_tb5, set_zero_flag_tb5,
          set_negative_flag_tb5, set_carry_flag_tb5, set_overflow_flag_tb5,
          update_zero_and_negative_flags_tb5, update_overflow_flag_tb5,
          adc_tb5, sbc_tb5, compare_tb5, ror_tb5, rotate_left_tb5,
          rotate_right_tb5, Nat.testBit_or, Nat.testBit_and,
          tb5_c01, tb5_c02, tb5_c04, tb5_c08, tb5_c20, tb5_c40, tb5_c80,
          tb5_cFE, tb5_cFD, tb5_cFB, tb5_cF7, tb5_cBF, tb5_c7F,
          Bool.or_true, Bool.true_or, Bool.or_false, Bool.false_or,
          Bool.and_true, Bool.true_and])

lemma execute_opcode_7x_bit5 (opcode : Nat) (s : CPUState) (p : CPUState × Nat)
    (h : execute_opcode_7x opcode s = some p)
    (h5 : s.status.testBit 5 = true) : p.1.status.testBit 5 = true := by
  unfold execute_opcode_7x at h
  split at h
  all_goals
    simp only [invalid_opcode, push_byte_to_stack, push_word_to_stack,
      pop_byte_from_stack, Option.bind_eq_bind', Option.bind_eq_some,
      Option.map_eq_some', Option.some.injEq, reduceCtorEq] at h
  all_goals
    (repeat' first
      | (obtain ⟨_, ⟨_, _, _, _, rfl⟩, h⟩ := h)
      | (obtain ⟨_, ⟨_, _, rfl⟩, h⟩ := h)
      | (obtain rfl := h)
      | (replace h := Option.some.inj h)
      | (obtain ⟨_, _, h⟩ := h)
      | (split at h)) <;>
    (first
      | assumption
      | simp_all only [update_carry_flag_tb5, set_zero_flag_tb5,
          set_negative_flag_tb5, set_carry_flag_tb5, set_overflow_flag_tb5,
          update_zero_and_negative_flags_tb5, update_overflow_flag_tb5,
          adc_tb5, sbc_tb5, compare_tb5, ror_tb5, rotate_left_tb5,
          rotate_right_tb5, Nat.testBit_or, Nat.testBit_and,
          tb5_c01, tb5_c02, tb5_c04, tb5_c08, tb5_c20, tb5_c40, tb5_c80,
          tb5_cFE, tb5_cFD, tb5_cFB, tb5_cF7, tb5_cBF, tb5_c7F,
          Bool.or_true, Bool.true_or, Bool.or_false, Bool.false_or,
          Bool.and_true, Bool.true_and])

lemma execute_opcode_8x_bit5 (opcode : Nat) (s : CPUState) (p : CPUState × Nat)
    (h : execute_opcode_8x opcode s = some p)
    (h5 : s.status.testBit 5 = true) : p.1.status.testBit 5 = true := by
  unfold execute_opcode_8x at h
  split at h
  all_goals
    simp only [invalid_opcode, push_byte_to_stack, push_word_to_stack,
      pop_byte_from_stack, Option.bind_eq_bind', Option.bind_eq_some,
      Option.map_eq_some', Option.some.injEq, reduceCtorEq] at h
  all_goals
    (repeat' first
      | (obtain ⟨_, ⟨_, _, _, _, rfl⟩, h⟩ := h)
      | (obtain ⟨_, ⟨_, _, rfl⟩, h⟩ := h)
      | (obtain rfl := h)
      | (replace h := Option.some.inj h)
      | (obtain ⟨_, _, h⟩ := h)
      | (split at h)) <;>
    (first
      | assumption
      | simp_all only [update_carry_flag_tb5, set_zero_flag_tb5,
          set_negative_flag_tb5, set_carry_flag_tb5, set_overflow_flag_tb5,
          update_zero_and_negative_flags_tb5, update_overflow_flag_tb5,
          adc_tb5, sbc_tb5, compare_tb5, ror_tb5, rotate_left_tb5,
          rotate_right_tb5, Nat.testBit_or, Nat.testBit_and,
          tb5_c01, tb5_c02, tb5_c04, tb5_c08, tb5_c20, tb5_c40, tb5_c80,
          tb5_cFE, tb5_cFD, tb5_cFB, tb5_cF7, tb5_cBF, tb5_c7F,
          Bool.or_true, Bool.true_or, Bool.or_false, Bool.false_or,
          Bool.and_true, Bool.true_and])

lemma execute_opcode_9x_bit5 (opcode : Nat) (s : CPUState) (p : CPUState × Nat)
    (h : execute_opcode_9x opcode s = some p)
    (h5 : s.status.testBit 5 = true) : p.1.status.testBit 5 = true := by
  unfold execute_opcode_9x at h
  split at h
  all_goals
    simp only [invalid_opcode, push_byte_to_stack, push_word_to_stack,
      pop_byte_from_stack, Option.bind_eq_bind', Option.bind_eq_some,
      Option.map_eq_some', Option.some.injEq, reduceCtorEq] at h
  all_goals
    (repeat' first
      | (obtain ⟨_, ⟨_, _, _, _, rfl⟩, h⟩ := h)
      | (obtain ⟨_, ⟨_, _, rfl⟩, h⟩ := h)
      | (obtain rfl := h)
      | (replace h := Option.some.inj h)
      | (obtain ⟨_, _, h⟩ := h)
      | (split at h)) <;>
    (first
      | assumption
      | simp_all only [update_carry_flag_tb5, set_zero_flag_tb5,
          set_negative_flag_tb5, set_carry_flag_tb5, set_overflow_flag_tb5,
          update_zero_and_negative_flags_tb5, update_overflow_flag_tb5,
          adc_tb5, sbc_tb5, compare_tb5, ror_tb5, rotate_left_tb5,
          rotate_right_tb5, Nat.testBit_or, Nat.testBit_and,
          tb5_c01, tb5_c02, tb5_c04, tb5_c08, tb5_c20, tb5_c40, tb5_c80,
          tb5_cFE, tb5_cFD, tb5_cFB, tb5_cF7, tb5_cBF, tb5_c7F,
          Bool.or_true, Bool.true_or, Bool.or_false, Bool.false_or,
          Bool.and_true, Bool.true_and])

lemma execute_opcode_Ax_bit5 (opcode : Nat) (s : CPUState) (p : CPUState × Nat)
    (h : execute_opcode_Ax opcode s = some p)
    (h5 : s.status.testBit 5 = true) : p.1.status.testBit 5 = true := by
  unfold execute_opcode_Ax at h
  split at h
  all_goals
    simp only [invalid_opcode, push_byte_to_stack, push_word_to_stack,
      pop_byte_from_stack, Option.bind_eq_bind', Option.bind_eq_some,
      Option.map_eq_some', Option.some.injEq, reduceCtorEq] at h
  all_goals
    (repeat' first
      | (obtain ⟨_, ⟨_, _, _, _, rfl⟩, h⟩ := h)
      | (obtain ⟨_, ⟨_, _, rfl⟩, h⟩ := h)
      | (obtain rfl := h)
      | (replace h := Option.some.inj h)
      | (obtain ⟨_, _, h⟩ := h)
      | (split at h)) <;>
    (first
      | assumption
      | simp_all only [update_carry_flag_tb5, set_zero_flag_tb5,
          set_negative_flag_tb5, set_carry_flag_tb5, set_overflow_flag_tb5,
          update_zero_and_negative_flags_tb5, update_overflow_flag_tb5,
          adc_tb5, sbc_tb5, compare_tb5, ror_tb5, rotate_left_tb5,
          rotate_right_tb5, Nat.testBit_or, Nat.testBit_and,
          tb5_c01, tb5_c02, tb5_c04, tb5_c08, tb5_c20, tb5_c40, tb5_c80,
          tb5_cFE, tb5_cFD, tb5_cFB, tb5_cF7, tb5_cBF, tb5_c7F,
          Bool.or_true, Bool.true_or, Bool.or_false, Bool.false_or,
          Bool.and_true, Bool.true_and])

lemma execute_opcode_Bx_bit5 (opcode : Nat) (s : CPUState) (p : CPUState × Nat)
    (h : execute_opcode_Bx opcode s = some p)
    (h5 : s.status.testBit 5 = true) : p.1.status.testBit 5 = true := by
  unfold execute_opcode_Bx at h
  split at h
  all_goals
    simp only [invalid_opcode, push_byte_to_stack, push_word_to_stack,
      pop_byte_from_stack, Option.bind_eq_bind', Option.bind_eq_some,
      Option.map_eq_some', Option.some.injEq, reduceCtorEq] at h
  all_goals
    (repeat' first
      | (obtain ⟨_, ⟨_, _, _, _, rfl⟩, h⟩ := h)
      | (obtain ⟨_, ⟨_, _, rfl⟩, h⟩ := h)
      | (obtain rfl := h)
      | (replace h := Option.some.inj h)
      | (obtain ⟨_, _, h⟩ := h)
      | (split at h)) <;>
    (first
      | assumption
      | simp_all only [update_carry_flag_tb5, set_zero_flag_tb5,
          set_negative_flag_tb5, set_carry_flag_tb5, set_overflow_flag_tb5,
          update_zero_and_negative_flags_tb5, update_overflow_flag_tb5,
          adc_tb5, sbc_tb5, compare_tb5, ror_tb5, rotate_left_tb5,
          rotate_right_tb5, Nat.testBit_or, Nat.testBit_and,
          tb5_c01, tb5_c02, tb5_c04, tb5_c08, tb5_c20, tb5_c40, tb5_c80,
          tb5_cFE, tb5_cFD, tb5_cFB, tb5_cF7, tb5_cBF, tb5_c7F,
          Bool.or_true, Bool.true_or, Bool.or_false, Bool.false_or,
          Bool.and_true, Bool.true_and])

lemma execute_opcode_Cx_bit5 (opcode : Nat) (s : CPUState) (p : CPUState × Nat)
    (h : execute_opcode_Cx opcode s = some p)
    (h5 : s.status.testBit 5 = true) : p.1.status.testBit 5 = true := by
  unfold execute_opcode_Cx at h
  split at h
  all_goals
    simp only [invalid_opcode, push_byte_to_stack, push_word_to_stack,
      pop_byte_from_stack, Option.bind_eq_bind', Option.bind_eq_some,
      Option.map_eq_some', Option.some.injEq, reduceCtorEq] at h
  all_goals
    (repeat' first
      | (obtain ⟨_, ⟨_, _, _, _, rfl⟩, h⟩ := h)
      | (obtain ⟨_, ⟨_, _, rfl⟩, h⟩ := h)
      | (obtain rfl := h)
      | (replace h := Option.some.inj h)
      | (obtain ⟨_, _, h⟩ := h)
      | (split at h)) <;>
    (first
      | assumption
      | simp_all only [update_carry_flag_tb5, set_zero_flag_tb5,
          set_negative_flag_tb5, set_carry_flag_tb5, set_overflow_flag_tb5,
          update_zero_and_negative_flags_tb5, update_overflow_flag_tb5,
          adc_tb5, sbc_tb5, compare_tb5, ror_tb5, rotate_left_tb5,
          rotate_right_tb5, Nat.testBit_or, Nat.testBit_and,
          tb5_c01, tb5_c02, tb5_c04, tb5_c08, tb5_c20, tb5_c40, tb5_c80,
          tb5_cFE, tb5_cFD, tb5_cFB, tb5_cF7, tb5_cBF, tb5_c7F,
          Bool.or_true, Bool.true_or, Bool.or_false, Bool.false_or,
          Bool.and_true, Bool.true_and])

lemma execute_opcode_Dx_bit5 (opcode : Nat) (s : CPUState) (p : CPUState × Nat)
    (h : execute_opcode_Dx opcode s = some p)
    (h5 : s.status.testBit 5 = true) : p.1.status.testBit 5 = true := by
  unfold execute_opcode_Dx at h
  split at h
  all_goals
    simp only [invalid_opcode, push_byte_to_stack, push_word_to_stack,
      pop_byte_from_stack, Option.bind_eq_bind', Option.bind_eq_some,
      Option.map_eq_some', Option.some.injEq, reduceCtorEq] at h
  all_goals
    (repeat' first
      | (obtain ⟨_, ⟨_, _, _, _, rfl⟩, h⟩ := h)
      | (obtain ⟨_, ⟨_, _, rfl⟩, h⟩ := h)
      | (obtain rfl := h)
      | (replace h := Option.some.inj h)
      | (obtain ⟨_, _, h⟩ := h)
      | (split at h)) <;>
    (first
      | assumption
      | simp_all only [update_carry_flag_tb5, set_zero_flag_tb5,
          set_negative_flag_tb5, set_carry_flag_tb5, set_overflow_flag_tb5,
          update_zero_and_negative_flags_tb5, update_overflow_flag_tb5,
          adc_tb5, sbc_tb5, compare_tb5, ror_tb5, rotate_left_tb5,
          rotate_right_tb5, Nat.testBit_or, Nat.testBit_and,
          tb5_c01, tb5_c02, tb5_c04, tb5_c08, tb5_c20, tb5_c40, tb5_c80,
          tb5_cFE, tb5_cFD, tb5_cFB, tb5_cF7, tb5_cBF, tb5_c7F,
          Bool.or_true, Bool.true_or, Bool.or_false, Bool.false_or,
          Bool.and_true, Bool.true_and])

lemma execute_opcode_Ex_bit5 (opcode : Nat) (s : CPUState) (p : CPUState × Nat)
    (h : execute_opcode_Ex opcode s = some p)
    (h5 : s.status.testBit 5 = true) : p.1.status.testBit 5 = true := by
  unfold execute_opcode_Ex at h
  split at h
  all_goals
    simp only [invalid_opcode, push_byte_to_stack, push_word_to_stack,
      pop_byte_from_stack, Option.bind_eq_bind', Option.bind_eq_some,
      Option.map_eq_some', Option.some.injEq, reduceCtorEq] at h
  all_goals
    (repeat' first
      | (obtain ⟨_, ⟨_, _, _, _, rfl⟩, h⟩ := h)
      | (obtain ⟨_, ⟨_, _, rfl⟩, h⟩ := h)
      | (obtain rfl := h)
      | (replace h := Option.some.inj h)
      | (obtain ⟨_, _, h⟩ := h)
      | (split at h)) <;>
    (first
      | assumption
      | simp_all only [update_carry_flag_tb5, set_zero_flag_tb5,
          set_negative_flag_tb5, set_carry_flag_tb5, set_overflow_flag_tb5,
          update_zero_and_negative_flags_tb5, update_overflow_flag_tb5,
          adc_tb5, sbc_tb5, compare_tb5, ror_tb5, rotate_left_tb5,
          rotate_right_tb5, Nat.testBit_or, Nat.testBit_and,
          tb5_c01, tb5_c02, tb5_c04, tb5_c08, tb5_c20, tb5_c40, tb5_c80,
          tb5_cFE, tb5_cFD, tb5_cFB, tb5_cF7, tb5_cBF, tb5_c7F,
          Bool.or_true, Bool.true_or, Bool.or_false, Bool.false_or,
          Bool.and_true, Bool.true_and])

lemma execute_opcode_Fx_bit5 (opcode : Nat) (s : CPUState) (p : CPUState × Nat)
    (h : execute_opcode_Fx opcode s = some p)
    (h5 : s.status.testBit 5 = true) : p.1.status.testBit 5 = true := by
  unfold execute_opcode_Fx at h
  split at h
  all_goals
    simp only [invalid_opcode, push_byte_to_stack, push_word_to_stack,
      pop_byte_from_stack, Option.bind_eq_bind', Option.bind_eq_some,
      Option.map_eq_some', Option.some.injEq, reduceCtorEq] at h
  all_goals
    (repeat' first
      | (obtain ⟨_, ⟨_, _, _, _, rfl⟩, h⟩ := h)
      | (obtain ⟨_, ⟨_, _, rfl⟩, h⟩ := h)
      | (obtain rfl := h)
      | (replace h := Option.some.inj h)
      | (obtain ⟨_, _, h⟩ := h)
      | (split at h)) <;>
    (first
      | assumption
      | simp_all only [update_carry_flag_tb5, set_zero_flag_tb5,
          set_negative_flag_tb5, set_carry_flag_tb5, set_overflow_flag_tb5,
          update_zero_and_negative_flags_tb5, update_overflow_flag_tb5,
          adc_tb5, sbc_tb5, compare_tb5, ror_tb5, rotate_left_tb5,
          rotate_right_tb5, Nat.testBit_or, Nat.testBit_and,
          tb5_c01, tb5_c02, tb5_c04, tb5_c08, tb5_c20, tb5_c40, tb5_c80,
          tb5_cFE, tb5_cFD, tb5_cFB, tb5_cF7, tb5_cBF, tb5_c7F,
          Bool.or_true, Bool.true_or, Bool.or_false, Bool.false_or,
          Bool.and_true, Bool.true_and])

/-- Every arm of the dispatch either keeps bit 5 of the status register,
rewrites the status through flag helpers that never touch bit 5, or
forces bit 5 on (`PLP`, `RTI`). -/
theorem execute_opcode_bit5 (opcode : Nat) (s : CPUState) (p : CPUState × Nat)
    (h : execute_opcode opcode s = some p)
    (h5 : s.status.testBit 5 = true) : p.1.status.testBit 5 = true := by
  unfold execute_opcode at h
  split at h
  all_goals
    first
    | exact Option.noConfusion h
    | exact execute_opcode_0x_bit5 _ _ _ h h5
    | exact execute_opcode_1x_bit5 _ _ _ h h5
    | exact execute_opcode_2x_bit5 _ _ _ h h5
    | exact execute_opcode_3x_bit5 _ _ _ h h5
    | exact execute_opcode_4x_bit5 _ _ _ h h5
    | exact execute_opcode_5x_bit5 _ _ _ h h5
    | exact execute_opcode_6x_bit5 _ _ _ h h5
    | exact execute_opcode_7x_bit5 _ _ _ h h5
    | exact execute_opcode_8x_bit5 _ _ _ h h5
    | exact execute_opcode_9x_bit5 _ _ _ h h5
    | exact execute_opcode_Ax_bit5 _ _ _ h h5
    | exact execute_opcode_Bx_bit5 _ _ _ h h5
    | exact execute_opcode_Cx_bit5 _ _ _ h h5
    | exact execute_opcode_Dx_bit5 _ _ _ h h5
    | exact execute_opcode_Ex_bit5 _ _ _ h h5
    | exact execute_opcode_Fx_bit5 _ _ _ h h5

/-- One `execute` step preserves bit 5 of the status register. -/
theorem execute_bit5 (s : CPUState) (p : CPUState × Nat)
    (h : execute s = some p) (h5 : s.status.testBit 5 = true) :
    p.1.status.testBit 5 = true := by
  unfold execute at h
  rcases hop : read_byte s.memory s.pc with _ | opcode
  · rw [hop] at h; exact Option.noConfusion h
  · rw [hop] at h
    exact execute_opcode_bit5 opcode _ p h h5

/-! ### Concrete states for evaluating claims -/

/-- The 2 KiB of internal RAM, zero as after `Memory::new`. -/
def ram0 : List Nat := List.replicate 0x800 0

/-- `Memory::new` with the given RAM bytes (address-value pairs) poked in. -/
def mem_with_ram (l : List (Nat × Nat)) : Memory :=
  { Memory.new with ram := l.foldl (fun r q => r.set q.1 q.2) ram0 }

/-- `CPU::new` on such a memory: the reset vector reads as 0 from the
empty PRG-ROM, so `PC = 0`, and `A = X = Y = 0`, `SP = 0xFD`, `P = 0x24`. -/
def cpu_on (l : List (Nat × Nat)) : CPUState := new_cpu (mem_with_ram l)

/-- Two `execute` steps. -/
def run2 (s : CPUState) : Option CPUState := do
  let p ← execute s
  let q ← execute p.1
  some q.1

/-! ### Claims -/

/-- C1: the claim says executing any opcode the implementation treats as
unofficial or unsupported returns normally; but the arm for opcode 0xC2
(like dozens of others) calls `CPU::invalid_opcode`, which is an
unconditional `panic!`, so the interpreter aborts (`execute` = `none`)
instead of returning a cycle count. -/
theorem invalid_opcode_0xC2_panics :
    execute (cpu_on [(0, 0xC2)]) = none := by decide

/-- C2: the claim says every bus write succeeds and PRG-ROM writes in
0x8000..=0xFFFF are silently dropped; but `Memory::write_byte` hits an
explicit `panic!` on that range (and the catch-all `panic!` on
0x2008..=0x3FFF), so the write aborts instead of being ignored. -/
theorem prg_rom_write_panics :
    write_byte Memory.new 0x8000 0x42 = none ∧
    write_byte Memory.new 0xFFFF 0x00 = none := by decide

/-- C3: the claim says every bus read succeeds and 0x6000..=0x7FFF reads
as zero when no cartridge SRAM is present; but `Memory::read_byte`
indexes the empty `cartridge_ram` vector out of bounds there, which
panics instead of returning 0. -/
theorem sram_read_panics :
    read_byte Memory.new 0x6000 = none ∧
    read_byte Memory.new 0x7FFF = none := by decide

/-- C5: the claim says `SBC(v)` equals `ADC(v ^ 0xFF)` on the
accumulator and flags; but `CPU::sbc` feeds the INVERTED carry into the
sum (`carry = 0` when the flag is set, `1` when clear), so already at
`A = 0`, `C = 0` (reset state), `v = 0` the accumulators disagree:
`sbc` gives `0x00` (and sets the carry) while `adc (0 ^^^ 0xFF)` gives
`0xFF` (carry clear). -/
theorem sbc_differs_from_adc_complement :
    (sbc (cpu_on []) 0).a = 0x00 ∧
    (adc (cpu_on []) (0 ^^^ 0xFF)).a = 0xFF ∧
    (sbc (cpu_on []) 0).a ≠ (adc (cpu_on []) (0 ^^^ 0xFF)).a ∧
    (sbc (cpu_on []) 0).status.testBit 0 = true ∧
    (adc (cpu_on []) (0 ^^^ 0xFF)).status.testBit 0 = false := by decide

/-- C6: the claim says a taken branch costs 3 cycles (same page) or 4
cycles (page crossed); but the source returns 2 for a taken same-page
BEQ (`branch_ticks` is computed and discarded in seven of the eight
branch arms), and 3 for a page-crossing taken BPL (the only arm that
uses the page-cross information at all). -/
theorem branch_cycles_differ_from_claim :
    (execute { cpu_on [(0, 0xF0), (1, 0x05)] with status := 0x26 }).map
        (fun p => (p.1.pc, p.2)) = some (0x0007, 2) ∧
    (execute { cpu_on [(0x90, 0x10), (0x91, 0x7F)] with pc := 0x90 }).map
        (fun p => (p.1.pc, p.2)) = some (0x0111, 3) := by decide

/-- C7: the claim says Zero Page,X addressing uses `(base + X) & 0xFF`;
but the 0xB5/0xD5 arms compute `(base + X) % 0xFF` (modulo 255, not
bitwise and).  With `base = 0xFF`, `X = 0` the code reads address 0x00
(which here holds the opcode byte 0xB5), not address 0xFF (which holds
0x77). -/
theorem zero_page_x_uses_mod_255 :
    (execute (cpu_on [(0, 0xB5), (1, 0xFF), (0xFF, 0x77)])).map
        (fun p => (p.1.a, p.2)) = some (0xB5, 4) ∧
    read_byte (mem_with_ram [(0, 0xB5), (1, 0xFF), (0xFF, 0x77)]) 0xFF = some 0x77 ∧
    (0xB5 : Nat) ≠ 0x77 := by decide

/-! ### Bit-level characterization of the flag helpers (for C4) -/

lemma tb0_c01 : Nat.testBit 0x01 0 = true := by decide

lemma tb0_cFE : Nat.testBit 0xFE 0 = false := by decide

lemma tb0_c02 : Nat.testBit 0x02 0 = false := by decide

lemma tb0_cFD : Nat.testBit 0xFD 0 = true := by decide

lemma tb0_c80 : Nat.testBit 0x80 0 = false := by decide

lemma tb0_c7F : Nat.testBit 0x7F 0 = true := by decide

lemma tb0_c40 : Nat.testBit 0x40 0 = false := by decide

lemma tb0_cBF : Nat.testBit 0xBF 0 = true := by decide

lemma tb1_c02 : Nat.testBit 0x02 1 = true := by decide

lemma tb1_cFD : Nat.testBit 0xFD 1 = false := by decide

lemma tb1_c80 : Nat.testBit 0x80 1 = false := by decide

lemma tb1_c7F : Nat.testBit 0x7F 1 = true := by decide

lemma tb1_c40 : Nat.testBit 0x40 1 = false := by decide

lemma tb1_cBF : Nat.testBit 0xBF 1 = true := by decide

lemma tb7_c80 : Nat.testBit 0x80 7 = true := by decide

lemma tb7_c7F : Nat.testBit 0x7F 7 = false := by decide

lemma tb7_c40 : Nat.testBit 0x40 7 = false := by decide

lemma tb7_cBF : Nat.testBit 0xBF 7 = true := by decide

lemma tb7_cFF : Nat.testBit 0xFF 7 = true := by decide

lemma tb6_c40 : Nat.testBit 0x40 6 = true := by decide

lemma tb6_cBF : Nat.testBit 0xBF 6 = false := by decide

lemma update_carry_flag_testBit0 (st : Nat) (b : Bool) :
    (update_carry_flag st b).testBit 0 = b := by
  cases b <;>
    simp [update_carry_flag, Nat.testBit_or, Nat.testBit_and, tb0_c01, tb0_cFE]

lemma set_zero_flag_testBit1 (st : Nat) (b : Bool) :
    (set_zero_flag st b).testBit 1 = b := by
  cases b <;>
    simp [set_zero_flag, Nat.testBit_or, Nat.testBit_and, tb1_c02, tb1_cFD]

lemma set_negative_flag_testBit7 (st : Nat) (b : Bool) :
    (set_negative_flag st b).testBit 7 = b := by
  cases b <;>
    simp [set_negative_flag, Nat.testBit_or, Nat.testBit_and, tb7_c80, tb7_c7F]

lemma set_overflow_flag_testBit6 (st : Nat) (b : Bool) :
    (set_overflow_flag st b).testBit 6 = b := by
  cases b <;>
    simp [set_overflow_flag, Nat.testBit_or, Nat.testBit_and, tb6_c40, tb6_cBF]

lemma set_zero_flag_tb0 (st : Nat) (b : Bool) :
    (set_zero_flag st b).testBit 0 = st.testBit 0 := by
  cases b <;>
    simp [set_zero_flag, Nat.testBit_or, Nat.testBit_and, tb0_c02, tb0_cFD]

lemma set_negative_flag_tb0 (st : Nat) (b : Bool) :
    (set_negative_flag st b).testBit 0 = st.testBit 0 := by
  cases b <;>
    simp [set_negative_flag, Nat.testBit_or, Nat.testBit_and, tb0_c80, tb0_c7F]

lemma set_overflow_flag_tb0 (st : Nat) (b : Bool) :
    (set_overflow_flag st b).testBit 0 = st.testBit 0 := by
  cases b <;>
    simp [set_overflow_flag, Nat.testBit_or, Nat.testBit_and, tb0_c40, tb0_cBF]

lemma set_negative_flag_tb1 (st : Nat) (b : Bool) :
    (set_negative_flag st b).testBit 1 = st.testBit 1 := by
  cases b <;>
    simp [set_negative_flag, Nat.testBit_or, Nat.testBit_and, tb1_c80, tb1_c7F]

lemma set_overflow_flag_tb1 (st : Nat) (b : Bool) :
    (set_overflow_flag st b).testBit 1 = st.testBit 1 := by
  cases b <;>
    simp [set_overflow_flag, Nat.testBit_or, Nat.testBit_and, tb1_c40, tb1_cBF]

lemma set_overflow_flag_tb7 (st : Nat) (b : Bool) :
    (set_overflow_flag st b).testBit 7 = st.testBit 7 := by
  cases b <;>
    simp [set_overflow_flag, Nat.testBit_or, Nat.testBit_and, tb7_c40, tb7_cBF]

lemma update_zero_and_negative_flags_tb0 (st v : Nat) :
    (update_zero_and_negative_flags st v).testBit 0 = st.testBit 0 := by
  simp only [update_zero_and_negative_flags, set_negative_flag_tb0,
    set_zero_flag_tb0]

lemma update_zero_and_negative_flags_testBit1 (st v : Nat) :
    (update_zero_and_negative_flags st v).testBit 1 = (v == 0) := by
  simp [update_zero_and_negative_flags, set_negative_flag_tb1, set_zero_flag_testBit1]

lemma update_zero_and_negative_flags_testBit7 (st v : Nat) :
    (update_zero_and_negative_flags st v).testBit 7 = (v &&& 0x80 != 0) := by
  simp [update_zero_and_negative_flags, set_negative_flag_testBit7]

lemma update_overflow_flag_tb0 (st a b r : Nat) :
    (update_overflow_flag st a b r).testBit 0 = st.testBit 0 := by
  simp only [update_overflow_flag, set_overflow_flag_tb0]

lemma update_overflow_flag_tb1 (st a b r : Nat) :
    (update_overflow_flag st a b r).testBit 1 = st.testBit 1 := by
  simp [update_overflow_flag, set_overflow_flag_tb1]

lemma update_overflow_flag_tb7 (st a b r : Nat) :
    (update_overflow_flag st a b r).testBit 7 = st.testBit 7 := by
  simp [update_overflow_flag, set_overflow_flag_tb7]

lemma update_overflow_flag_testBit6 (st a b r : Nat) :
    (update_overflow_flag st a b r).testBit 6 =
      ((a ^^^ r) &&& (b ^^^ r) &&& 0x80 != 0) := by
  simp [update_overflow_flag, set_overflow_flag_testBit6]

lemma beq_zero_decide (x : Nat) : (x == 0) = decide (x = 0) := by
  by_cases h : x = 0 <;> simp [h]

lemma and80_bne (x : Nat) : (x &&& 0x80 != 0) = x.testBit 7 := by
  rw [show (0x80 : Nat) = 2 ^ 7 by norm_num, Nat.and_two_pow]
  cases h : x.testBit 7 <;> simp

lemma and80_decide (x : Nat) : decide (x &&& 0x80 ≠ 0) = x.testBit 7 := by
  rw [show (0x80 : Nat) = 2 ^ 7 by norm_num, Nat.and_two_pow]
  cases h : x.testBit 7 <;> simp

/-- C4: `ADC` computes `t = A + v + C`, sets carry from `t > 0xFF`,
overflow from `(A ^ t) & (v ^ t) & 0x80`, the accumulator to `t & 0xFF`
and N/Z from it; and the two-step program `A9 FF 69 01` ends with
`A = 0x00`, `C = 1`, `Z = 1`, `V = 0`. -/
theorem adc_semantics_and_carry_chain :
    (∀ (s : CPUState) (v : Nat),
      (adc s v).a =
        (s.a + v + (if s.status &&& 0x01 == 1 then 1 else 0)) &&& 0xFF ∧
      (adc s v).status.testBit 0 =
        decide (s.a + v + (if s.status &&& 0x01 == 1 then 1 else 0) > 0xFF) ∧
      (adc s v).status.testBit 6 =
        decide ((s.a ^^^ (s.a + v + (if s.status &&& 0x01 == 1 then 1 else 0))) &&&
          (v ^^^ (s.a + v + (if s.status &&& 0x01 == 1 then 1 else 0))) &&& 0x80 ≠ 0) ∧
      (adc s v).status.testBit 1 =
        decide ((s.a + v + (if s.status &&& 0x01 == 1 then 1 else 0)) &&& 0xFF = 0) ∧
      (adc s v).status.testBit 7 =
        ((s.a + v + (if s.status &&& 0x01 == 1 then 1 else 0)) &&& 0xFF).testBit 7) ∧
    (run2 (cpu_on [(0, 0xA9), (1, 0xFF), (2, 0x69), (3, 0x01)])).map
      (fun s => (s.a, s.status.testBit 0, s.status.testBit 1, s.status.testBit 6)) =
      some (0x00, true, true, false) := by
  constructor
  · intro s v
    have hmod : ∀ x : Nat, x &&& 0xFF = x % 0x100 :=
      fun x => Nat.and_pow_two_sub_one_eq_mod x 8
    refine ⟨?_, ?_, ?_, ?_, ?_⟩
    · simp only [adc, hmod]
    · simp only [adc, update_overflow_flag_tb0,
        update_zero_and_negative_flags_tb0, update_carry_flag_testBit0]
    · simp only [adc, update_overflow_flag_testBit6, and80_bne, and80_decide,
        hmod]
      simp only [Nat.testBit_and, Nat.testBit_xor]
      have h7 : ∀ x : Nat, (x % 0x100).testBit 7 = x.testBit 7 := by
        intro x
        rw [show (0x100 : Nat) = 2 ^ 8 by norm_num, Nat.testBit_mod_two_pow]
        simp
      simp [h7]
    · simp only [adc, update_overflow_flag_tb1,
        update_zero_and_negative_flags_testBit1, beq_zero_decide, hmod]
    · simp only [adc, update_overflow_flag_tb7,
        update_zero_and_negative_flags_testBit7, and80_bne, hmod]
  · decide

/-- The high-byte fetch address of `JMP (ind)` collapses to the
pointer's page base when the pointer's low byte is `0xFF`. -/
lemma jmp_ptr_arith (hi : Nat) (h : hi < 0x100) :
    (((hi <<< 8) ||| 0xFF) &&& 0xFF00) ||| ((((hi <<< 8) ||| 0xFF) + 1) &&& 0xFF) =
      hi <<< 8 := by
  interval_cases hi <;> decide

/-- C9: in every state reachable from a legal RESET, bit 5 of the status
register is 1, and therefore the byte `PHP` pushes (`P | 0x10`) has
bit 5 set: it is 1 at reset (`P = 0x24`), forced to 1 by `PLP` and
`RTI` (`| 0x20`), and no other instruction clears it
(`execute_opcode_bit5`). -/
theorem reachable_status_bit5 (s : CPUState) (h : Reachable s) :
    s.status.testBit 5 = true ∧ (s.status ||| 0x10).testBit 5 = true := by
  have hb : s.status.testBit 5 = true := by
    induction h with
    | base m => exact (by decide : Nat.testBit 0x24 5 = true)
    | step hr hex ih => exact execute_bit5 _ _ hex ih
  exact ⟨hb, by simp [Nat.testBit_or, hb]⟩

/-- C9 witness: the reset state itself. -/
theorem reachable_status_bit5_witness :
    (new_cpu Memory.new).status.testBit 5 = true ∧
    ((new_cpu Memory.new).status ||| 0x10).testBit 5 = true :=
  reachable_status_bit5 _ (Reachable.base Memory.new)

/-- C8: when the opcode at `PC` is `6C` and the indirect pointer's low
byte is `0xFF`, the target's high byte is fetched from byte 0 of the
POINTER'S OWN page (`hi <<< 8`), not from the next page: the new `PC`
is built from the bytes at `(hi <<< 8) ||| 0xFF` and `hi <<< 8`. -/
theorem jmp_indirect_page_wrap (s : CPUState) (hi tlo thi : Nat)
    (hhi : hi < 0x100)
    (h6C : read_byte s.memory s.pc = some 0x6C)
    (hlo : read_byte s.memory ((s.pc + 1) % 0x10000) = some 0xFF)
    (hhib : read_byte s.memory ((s.pc + 2) % 0x10000) = some hi)
    (ht1 : read_byte s.memory ((hi <<< 8) ||| 0xFF) = some tlo)
    (ht2 : read_byte s.memory (hi <<< 8) = some thi) :
    execute s = some ({ s with pc := (thi <<< 8) ||| tlo }, 5) := by
  have hpc2 : ((s.pc + 1) % 0x10000 + 1) % 0x10000 = (s.pc + 2) % 0x10000 := by
    omega
  have h0 : execute s =
      execute_opcode_6x 0x6C { s with pc := (s.pc + 1) % 0x10000 } := by
    unfold execute
    rw [h6C]
    rfl
  rw [h0]
  show (do
    let lo ← read_byte s.memory ((s.pc + 1) % 0x10000)
    let hi2 ← read_byte s.memory (((s.pc + 1) % 0x10000 + 1) % 0x10000)
    let ptr := (hi2 <<< 8) ||| lo
    let addr_lo ← read_byte s.memory ptr
    let addr_hi ← read_byte s.memory ((ptr &&& 0xFF00) ||| ((ptr + 1) &&& 0xFF))
    some (({ s with pc := (addr_hi <<< 8) ||| addr_lo } : CPUState), (5 : Nat))) =
    some ({ s with pc := (thi <<< 8) ||| tlo }, 5)
  rw [hlo, hpc2, hhib]
  simp only [Option.bind_eq_bind', Option.some_bind]
  rw [ht1, jmp_ptr_arith hi hhi, ht2]
  rfl

/-- C8 witness: `6C FF 02` with memory `0x02FF = 0x00`, `0x0200 = 0x80`
sets `PC = 0x8000`. -/
theorem jmp_indirect_page_wrap_witness :
    execute (cpu_on [(0, 0x6C), (1, 0xFF), (2, 0x02), (0x2FF, 0x00), (0x200, 0x80)]) =
      some ({ cpu_on [(0, 0x6C), (1, 0xFF), (2, 0x02), (0x2FF, 0x00), (0x200, 0x80)] with
        pc := 0x8000 }, 5) :=
  jmp_indirect_page_wrap _ 0x02 0x00 0x80 (by decide) (by decide) (by decide)
    (by decide) (by decide) (by decide)

/-! ### Controller serial protocol (C10) -/

/-- The controller state after `n` serial reads. -/
def read_n (c : Controller) : Nat → Controller
  | 0 => c
  | n + 1 => (Controller.read (read_n c n)).1

/-- The value returned by the read following `n` earlier reads. -/
def nth_read (c : Controller) (n : Nat) : Nat := (Controller.read (read_n c n)).2

lemma read_n_index (c : Controller) (hc : c.strobe = false) (k : Nat) :
    read_n c k = { c with index := c.index + k } := by
  induction k with
  | zero => simp [read_n]
  | succ k ih =>
    rw [read_n, ih]
    simp [Controller.read, hc, Nat.add_assoc]

/-- C10 counterexample: after a strobe (write 1 then 0) with no buttons
pressed, the ninth serial read — the first one past the eight buttons —
returns 0, not the 1 the claim requires. -/
theorem controller_ninth_read_zero :
    nth_read (Controller.write (Controller.write Controller.new 1) 0) 8 = 0 ∧
    nth_read (Controller.write (Controller.write Controller.new 1) 0) 8 ≠ 1 := by
  decide

/-- C10 (amended): after a strobe, the first eight reads return the
button states in order (A, B, Select, Start, Up, Down, Left, Right) and
every read after those eight returns 0. -/
theorem controller_serial_protocol (b0 b1 b2 b3 b4 b5 b6 b7 : Bool) (n : Nat) :
    (n < 8 →
      nth_read (Controller.write (Controller.write
          { Controller.new with buttons := [b0, b1, b2, b3, b4, b5, b6, b7] } 1) 0) n =
        (if [b0, b1, b2, b3, b4, b5, b6, b7].getD n false then 1 else 0)) ∧
    (8 ≤ n →
      nth_read (Controller.write (Controller.write
          { Controller.new with buttons := [b0, b1, b2, b3, b4, b5, b6, b7] } 1) 0) n =
        0) := by
  have hc : Controller.write (Controller.write
      { Controller.new with buttons := [b0, b1, b2, b3, b4, b5, b6, b7] } 1) 0 =
      { buttons := [b0, b1, b2, b3, b4, b5, b6, b7], strobe := false, index := 0 } := rfl
  constructor
  · intro hn
    unfold nth_read
    rw [hc, read_n_index _ rfl n]
    interval_cases n <;> simp [Controller.read]
  · intro hn
    unfold nth_read
    rw [hc, read_n_index _ rfl n]
    have hlt : ¬ n < 8 := by omega
    simp [Controller.read, hlt]

/-- C10 witness: with only A pressed, the first read returns 1 and the
tenth returns 0. -/
theorem controller_serial_protocol_witness :
    nth_read (Controller.write (Controller.write
        { Controller.new with
          buttons := [true, false, false, false, false, false, false, false] } 1) 0) 0 = 1 ∧
    nth_read (Controller.write (Controller.write
        { Controller.new with
          buttons := [true, false, false, false, false, false, false, false] } 1) 0) 9 = 0 := by
  constructor
  · have h := (controller_serial_protocol true false false false false false false false 0).1
      (by decide)
    simpa using h
  · exact (controller_serial_protocol true false false false false false false false 9).2
      (by decide)

end Rustendo

